import Mathlib

/-!
# image-router: provider dispatch and normalisation

A shallow embedding of `src/services/imageHelpers.js` and
`src/services/imageService.js`.  JavaScript values are embedded as `JSVal`,
thrown values as `Thrown`, and every `async` function as a pure function of
the responses its environment supplies, returning what the function does
(`Except Thrown JSVal`) together with the network calls it made.
-/

set_option autoImplicit false

namespace ImageRouter

/-! ## JavaScript values -/

/-- JavaScript values as they come out of `JSON.parse`, plus `undefined`
and `NaN`.  Finite numbers are rationals (every finite double is one); an
object is its list of own properties in enumeration order, the first
binding of a key being the property. -/
inductive JSVal where
  | undefined : JSVal
  | null : JSVal
  | bool (b : Bool) : JSVal
  | num (q : ℚ) : JSVal
  | nan : JSVal
  | str (s : String) : JSVal
  | arr (items : List JSVal) : JSVal
  | obj (fields : List (String × JSVal)) : JSVal

/-- How a JavaScript function stops short of returning: with a `TypeError`
raised by the language itself, with `new Error(message)`, or with any value
given to `throw`.  The last case, `unmodelled`, is not something the code
does: it marks the inputs on which the embedding does not follow the code,
because the next step would need a conversion that is not embedded (a
number, an array or an object turned into a string, a string turned into a
number). -/
inductive Thrown where
  | typeError : Thrown
  | error (message : String) : Thrown
  | value (v : JSVal) : Thrown
  | unmodelled : Thrown

namespace JSVal

/-- The `ToBoolean` conversion: what `if (v)`, `!v` and `v || w` test. -/
def truthy : JSVal → Bool
  | undefined => false
  | null => false
  | bool b => b
  | num q => decide (q ≠ 0)
  | nan => false
  | str s => decide (s ≠ "")
  | arr _ => true
  | obj _ => true

/-- The values on which a property read throws: `undefined` and `null`. -/
def nullish : JSVal → Bool
  | undefined => true
  | null => true
  | _ => false

/-- Own-property lookup in a property list. -/
def lookup (k : String) : List (String × JSVal) → JSVal
  | [] => undefined
  | (k', v) :: rest => if k' = k then v else lookup k rest

/-- The read `v?.k` for an ordinary data key `k`: `undefined` on a nullish
`v` or on a value without that property. -/
def optProp (v : JSVal) (k : String) : JSVal :=
  match v with
  | obj fields => lookup k fields
  | _ => undefined

/-- The read `v.k` for an ordinary data key `k`: a `TypeError` on a nullish
`v`. -/
def prop (v : JSVal) (k : String) : Except Thrown JSVal :=
  if v.nullish then .error .typeError else .ok (v.optProp k)

/-- The read `v?.[0]`: the first element of an array, the property `"0"` of
an object, the first character of a string. -/
def first (v : JSVal) : JSVal :=
  match v with
  | arr items => items.headD undefined
  | obj fields => lookup "0" fields
  | str s =>
    match s.data with
    | [] => undefined
    | c :: _ => str (String.singleton c)
  | _ => undefined

/-- The test `a === b`; two arrays or two objects are never the same
reference here, one side being freshly parsed. -/
def strictEq : JSVal → JSVal → Bool
  | undefined, undefined => true
  | null, null => true
  | bool a, bool b => a == b
  | num a, num b => decide (a = b)
  | str a, str b => decide (a = b)
  | _, _ => false

/-- The test `v > 0`, for the values whose conversion to a number is
embedded. -/
def gtZero : JSVal → Except Thrown Bool
  | undefined => .ok false
  | null => .ok false
  | bool b => .ok b
  | num q => .ok (decide (q > 0))
  | nan => .ok false
  | _ => .error .unmodelled

/-- The values a `for (const x of v)` loop runs over: the elements of an
array, the characters of a string; nothing else among these values is
iterable. -/
def iterate : JSVal → Except Thrown (List JSVal)
  | arr items => .ok items
  | str s => .ok (s.data.map fun c => str (String.singleton c))
  | _ => .error .typeError

/-- The expression `a || b`. -/
def orElse (a b : JSVal) : JSVal :=
  if a.truthy then a else b

/-- The test `v === s` against a string literal `s`. -/
def isStr (v : JSVal) (s : String) : Bool :=
  match v with
  | str t => decide (t = s)
  | _ => false

/-- The test `v === true`. -/
def isTrue : JSVal → Bool
  | bool true => true
  | _ => false

end JSVal

/-! ## Strings -/

/-- The code points `String.prototype.trim` strips: ECMAScript `WhiteSpace`
and `LineTerminator`. -/
def isTrimChar (c : Char) : Bool :=
  let n := c.toNat
  n = 0x09 || n = 0x0A || n = 0x0B || n = 0x0C || n = 0x0D || n = 0x20 ||
  n = 0xA0 || n = 0x1680 || (0x2000 ≤ n && n ≤ 0x200A) || n = 0x2028 ||
  n = 0x2029 || n = 0x202F || n = 0x205F || n = 0x3000 || n = 0xFEFF

/-- `String.prototype.trim`. -/
def trim (s : String) : String :=
  String.mk ((s.data.dropWhile isTrimChar).reverse.dropWhile isTrimChar).reverse

/-- `s.split(',')` on the characters of `s`, carrying the piece being read. -/
def splitCommaAux : List Char → List Char → List String
  | [], cur => [String.mk cur.reverse]
  | c :: cs, cur =>
    if c = ',' then String.mk cur.reverse :: splitCommaAux cs []
    else splitCommaAux cs (c :: cur)

/-- `s.split(',')`. -/
def splitComma (s : String) : List String :=
  splitCommaAux s.data []

/-- `Array.prototype.join(sep)` on an array of strings. -/
def join (sep : String) : List String → String
  | [] => ""
  | [s] => s
  | s :: rest => s ++ sep ++ join sep rest

/-- `String.prototype.toLowerCase` on the ASCII letters. -/
def toLowerCase (s : String) : String :=
  String.mk (s.data.map Char.toLower)

/-! ## Numbers -/

/-- A `Math.random()` draw: the double `m / 2 ^ e`. -/
structure Draw where
  m : Nat
  e : Nat

/-- The draws that are doubles in `[0, 1)`: a significand of at most 53
bits, an exponent down to the subnormal grid `2 ^ (-1074)`, and a value
below one. -/
def Draw.valid (r : Draw) : Prop :=
  r.m < 2 ^ 53 ∧ r.e ≤ 1074 ∧ r.m < 2 ^ r.e

instance (r : Draw) : Decidable r.valid :=
  inferInstanceAs (Decidable (r.m < 2 ^ 53 ∧ r.e ≤ 1074 ∧ r.m < 2 ^ r.e))

/-- Round `M / 2 ^ q` to the nearest integer, ties to even. -/
def roundHalfEven (M q : Nat) : Nat :=
  let t := M / 2 ^ q
  let rem := M % 2 ^ q
  if 2 * rem > 2 ^ q ∨ (2 * rem = 2 ^ q ∧ t % 2 = 1) then t + 1 else t

/-- The position of the highest set bit of `n`, by halving, with `fuel`
halvings allowed. -/
def log2Aux : Nat → Nat → Nat
  | 0, _ => 0
  | fuel + 1, n => if n < 2 then 0 else log2Aux fuel (n / 2) + 1

/-- The position of the highest set bit: `⌊log₂ n⌋` for `n ≥ 1`. -/
def ilog2 (n : Nat) : Nat :=
  log2Aux n n

/-- `Math.floor(r * n)` in double arithmetic, for a draw `r` and an array
length `n`: the exact product `r.m * n / 2 ^ r.e` is rounded to a 53-bit
significand, ties to even, and then floored. -/
def floorMul (r : Draw) (n : Nat) : Nat :=
  let M := r.m * n
  if M < 2 ^ 53 then M / 2 ^ r.e
  else
    let q := ilog2 M - 52
    roundHalfEven M q * 2 ^ q / 2 ^ r.e

/-! ## `imageHelpers.js` -/

/-- The element read `xs[i]` on an array of strings. -/
def strAt (xs : List String) (i : Nat) : JSVal :=
  match xs[i]? with
  | some s => .str s
  | none => .undefined

/-- The array `getGeminiApiKey` builds from `GOOGLE_GEMINI_API_KEY`. -/
def geminiKeyArray (env : Option String) : List String :=
  match env with
  | none => []
  | some geminiKeyString =>
    if geminiKeyString ≠ "" then
      (splitComma geminiKeyString).filter (fun key => decide (trim key ≠ ""))
    else []

/-- `getGeminiApiKey(model)`, given the value of `GOOGLE_GEMINI_API_KEY`
(`none` when unset) and the `Math.random()` draw it may consume. -/
def getGeminiApiKey (env : Option String) (rand : Draw) (model : JSVal) :
    Except Thrown JSVal :=
  let keys := geminiKeyArray env
  if keys.length = 0 then
    .error (.error "No Google Gemini API key found")
  else if model.isStr "gemini-2.0-flash-exp-image-generation" && decide (keys.length > 1) then
    .ok (strAt keys (floorMul rand keys.length))
  else
    .ok (strAt keys 0)

/-! ## The network -/

/-- An HTTP response as the adapters use it: its status code and what
`await response.json()` gives (it rejects on a body that is not JSON). -/
structure Response where
  status : Nat
  json : Except Thrown JSVal

/-- The flag `response.ok`: the status is in the range 200 to 299. -/
def Response.ok (r : Response) : Bool :=
  decide (200 ≤ r.status) && decide (r.status ≤ 299)

/-- What `await fetch(..)` gives: a response, or the rejection of the
request itself (no connection, aborted transfer). -/
abbrev Fetched := Except Thrown Response

/-- The presence test `!value` on an environment variable, which is a
string when set. -/
def envMissing (value : Option String) : Bool :=
  match value with
  | none => true
  | some s => decide (s = "")

/-- The object an adapter returns for an outcome that must not be thrown:
`{ error: { message, type, original_response_from_provider } }`. -/
def softError (message type original : JSVal) : JSVal :=
  .obj [("error", .obj [("message", message), ("type", type),
    ("original_response_from_provider", original)])]

/-- The object `{ status, errorResponse }` the adapters throw. -/
def hardError (status : Nat) (errorResponse : JSVal) : Thrown :=
  .value (.obj [("status", .num status), ("errorResponse", errorResponse)])

/-- The call `v.toLowerCase()`, a `TypeError` on a value that is not a
string. -/
def JSVal.lower : JSVal → Except Thrown JSVal
  | .str s => .ok (.str (toLowerCase s))
  | _ => .error .typeError

/-- `Math.floor(ms / 1000)` for a clock reading `ms` in milliseconds. -/
def unixSeconds (ms : Nat) : JSVal :=
  .num ((ms / 1000 : Nat) : ℚ)

/-! ## `generateFal` -/

/-- The network calls `generateFal` can make. -/
inductive NetCall where
  | submit : NetCall
  | poll : NetCall
  | result : NetCall
  deriving DecidableEq, Repr

/-- One run of an adapter: the network calls it made, in order, and how it
settled (`ok` a returned value, `error` a thrown one). -/
structure Run where
  calls : List NetCall
  outcome : Except Thrown JSVal

/-- The constant `maxAttempts` of `generateFal`. -/
def maxAttempts : Nat := 60

/-- How the polling loop of `generateFal` ends: the function has settled
inside the loop body, or the loop condition has become false with these
values of `status` and `lastStatusPayload`. -/
inductive PollExit where
  | settled (outcome : Except Thrown JSVal) : PollExit
  | left (status lastStatusPayload : JSVal) : PollExit

/-- The test `['FAILED', 'CANCELED', 'ERROR'].includes(status)`. -/
def isFailedStatus (status : JSVal) : Bool :=
  status.isStr "FAILED" || status.isStr "CANCELED" || status.isStr "ERROR"

/-- The loop `while (status !== 'COMPLETED' && attempts < maxAttempts)` of
`generateFal`, `polls i` being the answer to the status request number `i`
(counted from 0).  `fuel` bounds the iterations and is `maxAttempts` at the
call, so that it never runs out before `attempts` reaches `maxAttempts`. -/
def falPoll (polls : Nat → Fetched) : Nat → Nat → JSVal → JSVal → List NetCall × PollExit
  | 0, _, status, lastStatusPayload => ([], .left status lastStatusPayload)
  | fuel + 1, attempts, status, lastStatusPayload =>
    if !status.isStr "COMPLETED" && decide (attempts < maxAttempts) then
      match polls attempts with
      | .error t => ([.poll], .settled (.error t))
      | .ok pollRes =>
        match pollRes.json with
        | .error t => ([.poll], .settled (.error t))
        | .ok payload =>
          if !pollRes.ok then
            ([.poll], .settled (.ok (softError
              ((payload.optProp "error").orElse (.str "Polling request failed"))
              (.str "polling_error") payload)))
          else
            match payload.prop "status" with
            | .error t => ([.poll], .settled (.error t))
            | .ok st =>
              if isFailedStatus st then
                match (st.orElse (.str "failed")).lower with
                | .error t => ([.poll], .settled (.error t))
                | .ok type =>
                  ([.poll], .settled (.ok (softError
                    ((payload.optProp "error").orElse (.str "Generation failed"))
                    type payload)))
              else
                let rest := falPoll polls fuel (attempts + 1) st payload
                (.poll :: rest.1, rest.2)
    else ([], .left status lastStatusPayload)

/-- The inner loop `for (const obj of item)` over a nested array. -/
def falInnerUrls : List JSVal → List JSVal
  | [] => []
  | o :: rest =>
    if (o.optProp "url").truthy then o.optProp "url" :: falInnerUrls rest
    else falInnerUrls rest

/-- The loop `for (const item of resultData.images)`. -/
def falUrls : List JSVal → List JSVal
  | [] => []
  | .arr inner :: rest => falInnerUrls inner ++ falUrls rest
  | item :: rest =>
    if (item.optProp "url").truthy then item.optProp "url" :: falUrls rest
    else falUrls rest

/-- The array `imageUrls` of `generateFal`. -/
def falImageUrls (images : JSVal) : List JSVal :=
  match images with
  | .arr items => falUrls items
  | _ => []

/-- The result `generateFal` returns on success. -/
def falResult (now : Nat) (resultData seed : JSVal) (imageUrls : List JSVal) : JSVal :=
  .obj [("created", unixSeconds now),
    ("data", .arr (imageUrls.map fun url =>
      .obj [("url", url), ("revised_prompt", .null),
        ("original_response_from_provider", resultData)])),
    ("seed", seed)]

/-- The part of `generateFal` after the polling loop. -/
def falFinish (result : Fetched) (now : Nat) (status lastStatusPayload : JSVal) : Run :=
  if !status.isStr "COMPLETED" then
    ⟨[], .ok (softError (.str "Prediction timed out on fal.ai – please try again later")
      (.str "timeout_error") lastStatusPayload)⟩
  else
    match result with
    | .error t => ⟨[.result], .error t⟩
    | .ok resultRes =>
      match resultRes.json with
      | .error t => ⟨[.result], .error t⟩
      | .ok resultData =>
        if !resultRes.ok then
          ⟨[.result], .ok (softError
            ((resultData.optProp "error").orElse (.str "Failed to fetch generation result"))
            (.str "result_error") resultData)⟩
        else
          match resultData.prop "images" with
          | .error t => ⟨[.result], .error t⟩
          | .ok images =>
            ⟨[.result], .ok (falResult now resultData (resultData.optProp "seed")
              (falImageUrls images))⟩

/-- `generateFal({ fetchParams })`, given `FAL_API_KEY`, the answers of the
network to the submit request, to the status requests and to the result
request, and the clock reading at the end.  The requests themselves (URLs,
headers, body) and the two-second sleeps are not part of the embedding. -/
def generateFal (FAL_API_KEY : Option String) (fetchParams : JSVal) (submit : Fetched)
    (polls : Nat → Fetched) (result : Fetched) (now : Nat) : Run :=
  if envMissing FAL_API_KEY then
    ⟨[], .error (.error "FAL_API_KEY environment variable is required for fal.ai provider")⟩
  else
    match fetchParams.prop "prompt" with
    | .error t => ⟨[], .error t⟩
    | .ok _ =>
      match submit with
      | .error t => ⟨[.submit], .error t⟩
      | .ok submitResponse =>
        match submitResponse.json with
        | .error t => ⟨[.submit], .error t⟩
        | .ok submitData =>
          if !submitResponse.ok then
            ⟨[.submit], .error (hardError submitResponse.status submitData)⟩
          else
            match submitData.prop "status" with
            | .error t => ⟨[.submit], .error t⟩
            | .ok status =>
              match falPoll polls maxAttempts 0 status submitData with
              | (calls, .settled outcome) => ⟨.submit :: calls, outcome⟩
              | (calls, .left status lastStatusPayload) =>
                let rest := falFinish result now status lastStatusPayload
                ⟨.submit :: (calls ++ rest.calls), rest.outcome⟩

/-- The request answered by `r` got an HTTP-ok response whose JSON body is
`payload`, and reading `payload.status` gives `status`. -/
def Reports (r : Fetched) (payload status : JSVal) : Prop :=
  ∃ res : Response, r = .ok res ∧ res.ok = true ∧ res.json = .ok payload ∧
    payload.prop "status" = .ok status

/-- The request answered by `r` got a response outside the 2xx range whose
JSON body is `payload`. -/
def HttpFails (r : Fetched) (payload : JSVal) : Prop :=
  ∃ res : Response, r = .ok res ∧ res.ok = false ∧ res.json = .ok payload

/-- The status keeps the loop of `generateFal` going: it is none of
COMPLETED, FAILED, CANCELED and ERROR. -/
def Running (status : JSVal) : Prop :=
  status.isStr "COMPLETED" = false ∧ isFailedStatus status = false

instance (status : JSVal) : Decidable (Running status) :=
  inferInstanceAs (Decidable (status.isStr "COMPLETED" = false ∧ isFailedStatus status = false))

/-! ### Sample responses, for the worked instances below -/

/-- A 200 response with JSON body `v`. -/
def okJson (v : JSVal) : Fetched :=
  .ok ⟨200, .ok v⟩

/-- A queue status payload. -/
def queueStatus (status : String) : JSVal :=
  .obj [("status", .str status)]

/-! ## The model registry -/

/-- What a transform hook (`applyImage`, `applyMask`, `applyQuality`) does
with the request object it is given. -/
inductive HookResult where
  /-- It returns its argument, whose contents are `after` by then. -/
  | same (after : JSVal) : HookResult
  /-- It leaves its argument with contents `after` and returns `value`,
  which is not that object. -/
  | fresh (after value : JSVal) : HookResult
  /-- It leaves its argument with contents `after` and throws. -/
  | threw (after : JSVal) (t : Thrown) : HookResult

/-- A transform hook, as a function of the contents of its argument. -/
abbrev Hook := JSVal → HookResult

/-- An entry of `providers`: the provider id (`none` when absent), the
upstream model name, and each hook when it is a function (`none` stands for
every value whose `typeof` is not `'function'`). -/
structure ProviderBinding where
  id : Option String
  model_name : JSVal
  applyImage : Option Hook
  applyMask : Option Hook
  applyQuality : Option Hook

/-- A value of the registry `imageModels`. -/
structure ModelConfig where
  providers : List ProviderBinding
  supported_params : JSVal

/-- The registry `imageModels`: its own properties in enumeration order,
under distinct keys. -/
abbrev Registry := List (String × ModelConfig)

/-- The read `imageModels[key]` for a string key. -/
def Registry.get (imageModels : Registry) (key : String) : Option ModelConfig :=
  match imageModels with
  | [] => none
  | (k, config) :: rest => if k = key then some config else Registry.get rest key

/-- The conversion of a value to a string, as a property key or inside a
template literal, for the values on which it is embedded. -/
def JSVal.toStr : JSVal → Except Thrown String
  | .str s => .ok s
  | .undefined => .ok "undefined"
  | .null => .ok "null"
  | .bool true => .ok "true"
  | .bool false => .ok "false"
  | .nan => .ok "NaN"
  | _ => .error .unmodelled

/-- The names every ordinary object inherits from `Object.prototype`: a
read of one of them on an object literal that has no such own property
gives a function (for `__proto__`, the prototype object), not
`undefined`. -/
def inheritedKeys : List String :=
  ["constructor", "__defineGetter__", "__defineSetter__", "hasOwnProperty",
    "__lookupGetter__", "__lookupSetter__", "isPrototypeOf", "propertyIsEnumerable",
    "toString", "valueOf", "__proto__", "toLocaleString"]

/-- The read `imageModels[model]` among the own properties of the registry,
`none` standing for no own property. -/
def Registry.resolve (imageModels : Registry) (model : JSVal) :
    Except Thrown (Option ModelConfig) :=
  match model.toStr with
  | .ok key => .ok (imageModels.get key)
  | .error t => .error t

/-- The filter `imageModels[modelId].supported_params?.edit === true`. -/
def supportsEdit (imageModels : Registry) (modelId : String) : Bool :=
  match imageModels.get modelId with
  | some config => (config.supported_params.optProp "edit").isTrue
  | none => false

/-- The array `supportedModels` of `generateImage`:
`Object.keys(imageModels).filter(..)`. -/
def supportedModels (imageModels : Registry) : List String :=
  (imageModels.map Prod.fst).filter (supportsEdit imageModels)

/-! ## The request object -/

/-- The request while `generateImage` runs: the contents of the object the
caller passed, and the value of the variable `fetchParams` once a hook has
made it something else than that object (`none` while it still is it). -/
structure Req where
  caller : JSVal
  own : Option JSVal

/-- The contents of what `fetchParams` refers to. -/
def Req.cur (r : Req) : JSVal :=
  match r.own with
  | some v => v
  | none => r.caller

/-- A write through `fetchParams`: it lands in the caller's object as long
as `fetchParams` is that object. -/
def Req.write (r : Req) (v : JSVal) : Req :=
  match r.own with
  | some _ => { r with own := some v }
  | none => { r with caller := v }

/-- The assignment `fetchParams = value` of a value that is not the object
`fetchParams` referred to. -/
def Req.rebind (r : Req) (value : JSVal) : Req :=
  { r with own := some value }

/-- The statement `fetchParams = hook(fetchParams)`. -/
def applyHook (hook : Hook) (r : Req) : Except (Req × Thrown) Req :=
  match hook r.cur with
  | .same after => .ok (r.write after)
  | .fresh after value => .ok ((r.write after).rebind value)
  | .threw after t => .error (r.write after, t)

/-- The read `fetchParams.files[name]`. -/
def readFile (r : Req) (name : String) : Except (Req × Thrown) JSVal :=
  match r.cur.prop "files" with
  | .error t => .error (r, t)
  | .ok files =>
    match files.prop name with
    | .error t => .error (r, t)
    | .ok v => .ok v

/-- The property list without `k`. -/
def removeKey (k : String) (fields : List (String × JSVal)) : List (String × JSVal) :=
  fields.filter fun p => decide (p.1 ≠ k)

/-- The statement `delete v[k]` in strict mode. -/
def JSVal.delete (v : JSVal) (k : String) : Except Thrown JSVal :=
  match v with
  | .undefined => .error .typeError
  | .null => .error .typeError
  | .obj fields => .ok (.obj (removeKey k fields))
  | other => .ok other

/-- The property list with `k` set to `x`, in place when `k` is there and
at the end otherwise. -/
def setKey (k : String) (x : JSVal) : List (String × JSVal) → List (String × JSVal)
  | [] => [(k, x)]
  | (k', v) :: rest => if k' = k then (k', x) :: rest else (k', v) :: setKey k x rest

/-- The statement `v[k] = x` in strict mode: a `TypeError` on `undefined`,
`null` and the primitive values.  A named property given to an array is not
recorded. -/
def JSVal.assign (v : JSVal) (k : String) (x : JSVal) : Except Thrown JSVal :=
  match v with
  | .obj fields => .ok (.obj (setKey k x fields))
  | .arr items => .ok (.arr items)
  | _ => .error .typeError

/-! ## The response sink and its heartbeat -/

/-- The streaming response `res` as `generateImage` drives it: whether the
headers went out, whether `setInterval` was called, whether the interval
is still scheduled, and how many keep-alive bytes were written. -/
structure Sink where
  headers : Bool
  started : Bool
  timer : Bool
  written : Nat

/-- No sink, or a sink not touched yet. -/
def Sink.idle : Sink :=
  ⟨false, false, false, 0⟩

/-- The sink after `setHeader`, `flushHeaders`, `setInterval` and
`res.on('close', ..)`. -/
def Sink.opened : Sink :=
  ⟨true, true, true, 0⟩

/-- The statement `if (intervalId) clearInterval(intervalId)`; the id of a
started interval is truthy. -/
def Sink.clear (s : Sink) : Sink :=
  if s.started then { s with timer := false } else s

/-- What the event loop can deliver between two steps of `generateImage`:
three more seconds have passed, or the client has closed the connection. -/
inductive SinkEvent where
  | tick : SinkEvent
  | close : SinkEvent

/-- One event: a tick runs the interval callback `res.write(' ')` when the
interval is still scheduled, a close runs the `'close'` listener. -/
def Sink.step (s : Sink) : SinkEvent → Sink
  | .tick => if s.timer then { s with written := s.written + 1 } else s
  | .close => s.clear

/-- A sequence of events, in order. -/
def Sink.run (s : Sink) (events : List SinkEvent) : Sink :=
  events.foldl Sink.step s

/-- The ticks that come before the first close. -/
def heartbeats : List SinkEvent → Nat
  | [] => 0
  | .tick :: rest => heartbeats rest + 1
  | .close :: _ => 0

/-! ## `generateImage` -/

/-- An adapter, as a function of the `fetchParams` it is called with (the
user id, the usage-log id and the network being fixed). -/
abbrev Handler := JSVal → Except Thrown JSVal

/-- The adapters that `providerHandlers` maps the provider ids to. -/
structure Handlers where
  openai : Handler
  deepinfra : Handler
  replicate : Handler
  gemini : Handler
  vertex : Handler
  test : Handler
  runware : Handler
  fal : Handler

/-- The read `providerHandlers[provider]`, `none` standing for `undefined`.
For a provider id that is an inherited name the read gives a member of
`Object.prototype`, which is truthy and is then called in place of an
adapter; what that call does is not embedded. -/
def providerHandlers (handlers : Handlers) (provider : String) : Option Handler :=
  if provider = "openai" then some handlers.openai
  else if provider = "deepinfra" then some handlers.deepinfra
  else if provider = "replicate" then some handlers.replicate
  else if provider = "gemini" then some handlers.gemini
  else if provider = "vertex" then some handlers.vertex
  else if provider = "test" then some handlers.test
  else if provider = "runware" then some handlers.runware
  else if provider = "fal" then some handlers.fal
  else if inheritedKeys.contains provider then some fun _ => .error .unmodelled
  else none

/-- The binding `modelConfig.providers[0]` together with its id
`modelConfig?.providers[0]?.id`, when that id is truthy (`none` when it is
not).  When the model id names no own property of the registry but an
inherited one, `modelConfig` is a member of `Object.prototype`, its
`providers` is `undefined`, and the read of `[0]` throws a `TypeError`. -/
def resolveProvider (imageModels : Registry) (model : JSVal) :
    Except Thrown (Option (ProviderBinding × String)) :=
  match imageModels.resolve model with
  | .error t => .error t
  | .ok none =>
    match model.toStr with
    | .error t => .error t
    | .ok key => if inheritedKeys.contains key then .error .typeError else .ok none
  | .ok (some modelConfig) =>
    match modelConfig.providers.head? with
    | none => .ok none
    | some binding =>
      match binding.id with
      | none => .ok none
      | some provider => if provider = "" then .ok none else .ok (some (binding, provider))

/-- The block `if (fetchParams.files.image) { .. }`. -/
def imageStep (imageModels : Registry) (binding : ProviderBinding) (r : Req) :
    Except (Req × Thrown) Req :=
  match readFile r "image" with
  | .error e => .error e
  | .ok image =>
    if image.truthy then
      match binding.applyImage with
      | some hook => applyHook hook r
      | none => .error (r, .error
          ("Image editing is not supported for this model. Supported models: " ++
            join ", " (supportedModels imageModels)))
    else .ok r

/-- The block `if (fetchParams.files.mask) { .. }`. -/
def maskStep (binding : ProviderBinding) (r : Req) : Except (Req × Thrown) Req :=
  match readFile r "mask" with
  | .error e => .error e
  | .ok mask =>
    if mask.truthy then
      match binding.applyMask with
      | some hook => applyHook hook r
      | none => .error (r, .error "Mask editing is not supported for this model")
    else .ok r

/-- The statements `delete fetchParams.files` and
`fetchParams.model = modelConfig.providers[0].model_name`. -/
def renameStep (binding : ProviderBinding) (r : Req) : Except (Req × Thrown) Req :=
  match r.cur.delete "files" with
  | .error t => .error (r, t)
  | .ok deleted =>
    match deleted.assign "model" binding.model_name with
    | .error t => .error (r.write deleted, t)
    | .ok renamed => .ok (r.write renamed)

/-- The block `if (fetchParams.quality && typeof .. === 'function') { .. }`. -/
def qualityStep (binding : ProviderBinding) (r : Req) : Except (Req × Thrown) Req :=
  match r.cur.prop "quality" with
  | .error t => .error (r, t)
  | .ok quality =>
    if quality.truthy then
      match binding.applyQuality with
      | some hook => applyHook hook r
      | none => .ok r
    else .ok r

/-- The request transformations of `generateImage`, from the image block to
the quality block. -/
def prepare (imageModels : Registry) (binding : ProviderBinding) (r : Req) :
    Except (Req × Thrown) Req :=
  match imageStep imageModels binding r with
  | .error e => .error e
  | .ok r1 =>
    match maskStep binding r1 with
    | .error e => .error e
    | .ok r2 =>
      match renameStep binding r2 with
      | .error e => .error e
      | .ok r3 => qualityStep binding r3

/-- The call `model.includes('test')`: a substring test on a string, a
membership test on an array, a `TypeError` on anything else. -/
def includesTest : JSVal → Except Thrown Bool
  | .str s => .ok (s.data.tails.any fun t => "test".data.isPrefixOf t)
  | .arr items => .ok (items.any fun v => v.isStr "test")
  | _ => .error .typeError

/-- The `try { .. } catch (error) { .. }` of `generateImage`, from the point
where the adapter call has settled as `handled`: the outcome of
`generateImage` and the sink it leaves.  `duringStorage` are the events
delivered while the storage service is awaited. -/
def tryBlock (storage : JSVal → JSVal → Except Thrown JSVal) (fetchParams latency : JSVal)
    (duringStorage : List SinkEvent) (sink : Sink) (handled : Except Thrown JSVal) :
    Except Thrown JSVal × Sink :=
  match handled with
  | .error t => (.error t, sink.clear)
  | .ok result =>
    match result.assign "latency" latency with
    | .error t => (.error t, sink.clear)
    | .ok result =>
      match fetchParams.prop "model" with
      | .error t => (.error t, sink.clear.clear)
      | .ok model =>
        match includesTest model with
        | .error t => (.error t, sink.clear.clear)
        | .ok true => (.ok result, sink.clear)
        | .ok false =>
          match storage result (fetchParams.optProp "response_format") with
          | .error t => (.error t, (sink.clear.run duringStorage).clear)
          | .ok processedResult => (.ok processedResult, sink.clear.run duringStorage)

/-- What a call of `generateImage` leaves behind: how it settled, the
contents of the request object the caller passed, how many times an adapter
was invoked, and the sink. -/
structure Dispatch where
  outcome : Except Thrown JSVal
  request : JSVal
  handlerCalls : Nat
  sink : Sink

/-- `generateImage(fetchParams, userId, res, usageLogId)`, given the
registry, the adapters, the storage service (as a function of the result
and the response format), whether a sink `res` is supplied, the clock at
the start and when the adapter has settled, and the events delivered to the
sink while the adapter call and the storage call are pending.  The methods
of a supplied sink are taken not to throw. -/
def generateImage (imageModels : Registry) (handlers : Handlers)
    (storage : JSVal → JSVal → Except Thrown JSVal) (fetchParams : JSVal) (res : Bool)
    (startTime endTime : Nat) (during duringStorage : List SinkEvent) : Dispatch :=
  match fetchParams.prop "model" with
  | .error t => ⟨.error t, fetchParams, 0, .idle⟩
  | .ok model =>
    match resolveProvider imageModels model with
    | .error t => ⟨.error t, fetchParams, 0, .idle⟩
    | .ok none => ⟨.error (.error "Invalid model specified"), fetchParams, 0, .idle⟩
    | .ok (some (binding, provider)) =>
      match prepare imageModels binding ⟨fetchParams, none⟩ with
      | .error (r, t) => ⟨.error t, r.caller, 0, .idle⟩
      | .ok r =>
        match providerHandlers handlers provider with
        | none =>
          ⟨.error (.error ("No handler implemented for provider " ++ provider)),
            r.caller, 0, .idle⟩
        | some handler =>
          let sink := if res then Sink.opened.run during else Sink.idle
          let latency := JSVal.num (((endTime : Int) - (startTime : Int) : Int) : ℚ)
          let done := tryBlock storage r.cur latency duringStorage sink (handler r.cur)
          ⟨done.1, r.caller, 1, done.2⟩

/-- Adapters that all return an empty result object. -/
def sampleHandlers : Handlers :=
  ⟨fun _ => .ok (.obj []), fun _ => .ok (.obj []), fun _ => .ok (.obj []),
    fun _ => .ok (.obj []), fun _ => .ok (.obj []), fun _ => .ok (.obj []),
    fun _ => .ok (.obj []), fun _ => .ok (.obj [])⟩

/-- A registry of three models: two that support editing, around one that
has no hook at all. -/
def sampleRegistry : Registry :=
  [("openai/gpt-image-1",
      ⟨[⟨some "openai", .str "gpt-image-1", some fun p => .same p, none, none⟩],
        .obj [("edit", .bool true)]⟩),
    ("google/imagen-4",
      ⟨[⟨some "vertex", .str "imagen-4.0-generate-preview-05-20", none, none, none⟩],
        .undefined⟩),
    ("black-forest-labs/flux-kontext",
      ⟨[⟨some "replicate", .str "flux-kontext-max", some fun p => .same p, none, none⟩],
        .obj [("edit", .bool true)]⟩)]

/-- A request for the model without hooks. -/
def sampleRequest (files : JSVal) : JSVal :=
  .obj [("prompt", .str "a cat"), ("model", .str "google/imagen-4"), ("files", files)]

/-! ## The other adapters

Each adapter is given the answer of the network to its request.  Building
the request (URL, headers, body) is not embedded, except that it can throw:
`built` is how it went where something is encoded or constructed on the way
(the form data of an OpenAI edit, the source image of Replicate, the inline
images and the proxy agent of Gemini). -/

/-- `generateOpenAI({ fetchParams, userId })`. -/
def generateOpenAI (fetchParams : JSVal) (built : Except Thrown Unit) (fetch : Fetched) :
    Except Thrown JSVal :=
  match fetchParams.prop "image" with
  | .error t => .error t
  | .ok _ =>
    match built with
    | .error t => .error t
    | .ok _ =>
      match fetch with
      | .error t => .error t
      | .ok response =>
        if !response.ok then
          match response.json with
          | .error t => .error t
          | .ok errorResponse => .error (hardError response.status errorResponse)
        else response.json

/-- The object `formattedError` of `generateDeepInfra`. -/
def deepInfraError (errorResponse : JSVal) : JSVal :=
  .obj [("status", (errorResponse.optProp "status").orElse (.num 500)),
    ("statusText", (errorResponse.optProp "statusText").orElse (.str "Unknown Error")),
    ("error", .obj [
      ("message", ((errorResponse.optProp "error").optProp "message").orElse
        (.str "An unknown error occurred (152)")),
      ("type", (((errorResponse.optProp "error").optProp "type").orElse
        (errorResponse.optProp "statusText")).orElse (.str "Unknown Error"))]),
    ("original_response_from_provider", errorResponse)]

/-- `generateDeepInfra({ fetchParams, userId })`. -/
def generateDeepInfra (fetchParams : JSVal) (fetch : Fetched) : Except Thrown JSVal :=
  match fetchParams.prop "prompt" with
  | .error t => .error t
  | .ok _ =>
    match fetch with
    | .error t => .error t
    | .ok response =>
      if !response.ok then
        match response.json with
        | .error t => .error t
        | .ok errorResponse =>
          .error (hardError response.status (deepInfraError errorResponse))
      else response.json

/-- The object `formattedError` of `generateReplicate`. -/
def replicateError (data : JSVal) : JSVal :=
  .obj [("status", data.optProp "status"),
    ("statusText", data.optProp "detail"),
    ("error", .obj [("message", data.optProp "detail"), ("type", data.optProp "status")]),
    ("original_response_from_provider", data)]

/-- `Math.floor(new Date(v).getTime() / 1000)`, `getTime` giving the time
value of `new Date(v)` in milliseconds (`none` for an invalid date). -/
def createdAt (getTime : JSVal → Option Int) (v : JSVal) : JSVal :=
  match getTime v with
  | some ms => .num ((ms / 1000 : Int) : ℚ)
  | none => .nan

/-- The part of `generateReplicate` after the polling: the soft timeout
object, or the result. -/
def replicateResult (getTime : JSVal → Option Int) (data : JSVal) : Except Thrown JSVal :=
  match data.prop "status" with
  | .error t => .error t
  | .ok status =>
    if status.isStr "timeout" || !(data.optProp "output").truthy then
      .ok (softError (.str "Prediction timed out on Replicate – please try again later")
        (.str "timeout_error") data)
    else
      let outputArray :=
        match data.optProp "output" with
        | .arr items => items
        | output => [output]
      .ok (.obj [("created", createdAt getTime (data.optProp "created_at")),
        ("data", .arr (outputArray.map fun url =>
          .obj [("url", url), ("revised_prompt", .null),
            ("original_response_from_provider", data)]))])

/-- `generateReplicate({ fetchParams })`.  `polled` is what
`pollReplicatePrediction(data.urls.get, providerKey)` gives, a function of
`replicateUtils.js`. -/
def generateReplicate (fetchParams : JSVal) (built : Except Thrown Unit) (fetch : Fetched)
    (polled : Except Thrown JSVal) (getTime : JSVal → Option Int) : Except Thrown JSVal :=
  match fetchParams.prop "prompt" with
  | .error t => .error t
  | .ok _ =>
    match built with
    | .error t => .error t
    | .ok _ =>
      match fetch with
      | .error t => .error t
      | .ok createRes =>
        match createRes.json with
        | .error t => .error t
        | .ok data =>
          if !createRes.ok then
            .error (hardError createRes.status (replicateError data))
          else
            match data.prop "status" with
            | .error t => .error t
            | .ok status =>
              if !status.isStr "succeeded" || !(data.optProp "output").truthy then
                match (data.optProp "urls").prop "get" with
                | .error t => .error t
                | .ok _ =>
                  match polled with
                  | .error t => .error t
                  | .ok data => replicateResult getTime data
              else replicateResult getTime data

/-- The object `formattedError` of `generateGemini`. -/
def geminiError (model data : JSVal) : JSVal :=
  let statusText := (data.optProp "error").optProp "status"
  .obj [("status", (data.optProp "error").optProp "code"),
    ("statusText", statusText),
    ("error", .obj [
      ("message",
        if statusText.isStr "RESOURCE_EXHAUSTED" &&
            model.isStr "gemini-2.0-flash-exp-image-generation" then
          .str "This model hit a global rate limit. Please try again."
        else (data.optProp "error").optProp "message"),
      ("type", statusText)]),
    ("original_response_from_provider", data)]

/-- The array `imageDataArray` of `generateGemini`. -/
def geminiImages : List JSVal → List JSVal
  | [] => []
  | part :: rest =>
    if ((part.optProp "inlineData").optProp "data").truthy then
      (part.optProp "inlineData").optProp "data" :: geminiImages rest
    else geminiImages rest

/-- The variable `textResponse` of `generateGemini`. -/
def geminiText : List JSVal → JSVal
  | [] => .null
  | part :: rest => if (part.optProp "text").truthy then part.optProp "text" else geminiText rest

/-- The part of `generateGemini` that follows a 2xx response with body
`data`. -/
def geminiResult (now : Nat) (data : JSVal) : Except Thrown JSVal :=
  let parts := (((data.optProp "candidates").first).optProp "content").optProp "parts"
  match (if parts.truthy then parts.iterate else .ok []) with
  | .error t => .error t
  | .ok items =>
    if (geminiImages items).length > 0 then
      .ok (.obj [("created", unixSeconds now),
        ("data", .arr ((geminiImages items).map fun imageData =>
          .obj [("b64_json", imageData), ("revised_prompt", .null)]))])
    else
      .error (hardError 406 (.obj [("status", .num 406),
        ("statusText", .str "No image generated"),
        ("error", .obj [
          ("message", (geminiText items).orElse (.str "No image or text found in response")),
          ("type", .str "No image generated")]),
        ("original_response_from_provider", data)]))

/-- `generateGemini({ fetchParams, userId })`. -/
def generateGemini (GOOGLE_GEMINI_API_KEY : Option String) (rand : Draw) (fetchParams : JSVal)
    (built : Except Thrown Unit) (fetch : Fetched) (now : Nat) : Except Thrown JSVal :=
  match fetchParams.prop "model" with
  | .error t => .error t
  | .ok model =>
    match getGeminiApiKey GOOGLE_GEMINI_API_KEY rand model with
    | .error t => .error t
    | .ok _ =>
      match built with
      | .error t => .error t
      | .ok _ =>
        match fetch with
        | .error t => .error t
        | .ok response =>
          match response.json with
          | .error t => .error t
          | .ok data =>
            if !response.ok then
              .error (hardError response.status (geminiError model data))
            else geminiResult now data

/-- The callback of `data.predictions.map(..)` in `generateVertex`. -/
def vertexEntry (prediction : JSVal) : Except Thrown JSVal :=
  match prediction.prop "bytesBase64Encoded" with
  | .error t => .error t
  | .ok bytes => .ok (.obj [("revised_prompt", .null), ("b64_json", bytes)])

/-- The call `data.predictions.map(..)` on the elements of the array, left
to right. -/
def vertexEntries : List JSVal → Except Thrown (List JSVal)
  | [] => .ok []
  | prediction :: rest =>
    match vertexEntry prediction with
    | .error t => .error t
    | .ok entry =>
      match vertexEntries rest with
      | .error t => .error t
      | .ok entries => .ok (entry :: entries)

/-- The field `convertedData.data` of `generateVertex`, from
`data.predictions`. -/
def vertexData (predictions : JSVal) : Except Thrown (List JSVal) :=
  if !predictions.truthy then .ok []
  else
    match predictions with
    | .arr items => if items.length > 0 then vertexEntries items else .ok []
    | .str _ => .error .typeError
    | .obj fields =>
      match (JSVal.lookup "length" fields).gtZero with
      | .error t => .error t
      | .ok true => .error .typeError
      | .ok false => .ok []
    | _ => .ok []

/-- `generateVertex({ fetchParams, userId })`, given the two environment
variables, whether the service-account key decodes to JSON, and what the
authentication library gives as access token. -/
def generateVertex (GOOGLE_CLOUD_PROJECT_ID GOOGLE_SERVICE_ACCOUNT_KEY : Option String)
    (keyParses : Bool) (accessToken : Except Thrown JSVal) (fetchParams : JSVal)
    (fetch : Fetched) (now : Nat) : Except Thrown JSVal :=
  if envMissing GOOGLE_CLOUD_PROJECT_ID then
    .error (.error "GOOGLE_CLOUD_PROJECT_ID environment variable is required for Vertex AI")
  else if envMissing GOOGLE_SERVICE_ACCOUNT_KEY then
    .error (.error ("GOOGLE_SERVICE_ACCOUNT_KEY environment variable is required for " ++
      "Vertex AI (base64 encoded service account JSON)"))
  else if !keyParses then
    .error (.error "Invalid GOOGLE_SERVICE_ACCOUNT_KEY format. Must be base64 encoded JSON.")
  else
    match accessToken with
    | .error t => .error t
    | .ok token =>
      if !(token.optProp "token").truthy then
        .error (.error "Failed to get Google Cloud access token")
      else
        match fetchParams.prop "model" with
        | .error t => .error t
        | .ok _ =>
          match fetch with
          | .error t => .error t
          | .ok response =>
            if !response.ok then
              match response.json with
              | .error t => .error t
              | .ok errorResponse => .error (hardError response.status errorResponse)
            else
              match response.json with
              | .error t => .error t
              | .ok data =>
                match data.prop "predictions" with
                | .error t => .error t
                | .ok predictions =>
                  match vertexData predictions with
                  | .error t => .error t
                  | .ok entries =>
                    .ok (.obj [("created", unixSeconds now), ("data", .arr entries)])

/-- `generateTest({ fetchParams, userId })`, `file` being the base64 text
of the fixture that `fs.readFile` finds. -/
def generateTest (fetchParams : JSVal) (file : Except Thrown String) (now : Nat) :
    Except Thrown JSVal :=
  match fetchParams.prop "quality" with
  | .error t => .error t
  | .ok quality =>
    match quality.toStr with
    | .error t => .error t
    | .ok name =>
      match file with
      | .error t => .error t
      | .ok b64_json =>
        let responseData :=
          if (fetchParams.optProp "response_format").isStr "b64_json" then
            JSVal.obj [("revised_prompt", .null), ("b64_json", .str b64_json)]
          else
            JSVal.obj [("revised_prompt", .null),
              ("url", .str ("https://raw.githubusercontent.com/DaWe35/image-router/refs/" ++
                "heads/main/src/shared/imageModels/test/" ++ name ++ ".png"))]
        .ok (.obj [("created", .num (now : ℚ)), ("data", .arr [responseData])])

/-- The object `formattedError` of `generateRunware`. -/
def runwareError (status : Nat) (data : JSVal) : JSVal :=
  let errorObj := ((data.optProp "errors").first).orElse (.obj [])
  .obj [("status", .num status),
    ("statusText", (errorObj.optProp "code").orElse (.str "Error")),
    ("error", .obj [
      ("message", (errorObj.optProp "message").orElse (.str "Runware generation failed")),
      ("type", (errorObj.optProp "code").orElse (.str "runware_error"))]),
    ("original_response_from_provider", data)]

/-- The call `data.data.find(item => item.taskUUID === taskUUID)`. -/
def runwareFind (taskUUID : JSVal) : List JSVal → Except Thrown JSVal
  | [] => .ok .undefined
  | item :: rest =>
    match item.prop "taskUUID" with
    | .error t => .error t
    | .ok id => if id.strictEq taskUUID then .ok item else runwareFind taskUUID rest

/-- The part of `generateRunware` that follows an accepted response with body
`data`. -/
def runwareResult (usageLogId : JSVal) (now : Nat) (data : JSVal) : Except Thrown JSVal :=
  match data.optProp "data" with
  | .arr items =>
    match runwareFind usageLogId items with
    | .error t => .error t
    | .ok found =>
      let taskResult := found.orElse (items.headD .undefined)
      match taskResult.prop "cost" with
      | .error t => .error t
      | .ok cost =>
        .ok (.obj [("created", unixSeconds now),
          ("data", .arr [.obj [("url", (taskResult.optProp "imageURL").orElse .null),
            ("revised_prompt", .null), ("original_response_from_provider", data)]]),
          ("cost", cost)])
  | _ => .error .typeError

/-- `generateRunware({ fetchParams, userId, usageLogId })`. -/
def generateRunware (RUNWARE_API_KEY : Option String) (usageLogId fetchParams : JSVal)
    (fetch : Fetched) (now : Nat) : Except Thrown JSVal :=
  if envMissing RUNWARE_API_KEY then
    .error (.error "RUNWARE_API_KEY environment variable is required for Runware provider")
  else if !usageLogId.truthy then
    .error (.error "usageLogId is required for Runware provider")
  else
    match fetchParams.prop "prompt" with
    | .error t => .error t
    | .ok _ =>
      match fetch with
      | .error t => .error t
      | .ok response =>
        match response.json with
        | .error t => .error t
        | .ok data =>
          if !response.ok || !(data.optProp "data").truthy then
            .error (hardError response.status (runwareError response.status data))
          else runwareResult usageLogId now data

/-! ## Shapes of responses and results -/

/-- The request answered by `fetch` got a response with this status,
outside the 2xx range, and this JSON body. -/
def NonOk (fetch : Fetched) (status : Nat) (body : JSVal) : Prop :=
  ∃ res : Response, fetch = .ok res ∧ res.ok = false ∧ res.status = status ∧
    res.json = .ok body

/-- The request answered by `fetch` got a 2xx response with this JSON
body. -/
def Accepted (fetch : Fetched) (body : JSVal) : Prop :=
  ∃ res : Response, fetch = .ok res ∧ res.ok = true ∧ res.json = .ok body

/-- The entries of the field `data` of a result. -/
def dataOf (v : JSVal) : List JSVal :=
  match v.optProp "data" with
  | .arr items => items
  | _ => []

/-- The field `data` of `v` is an array and each of its entries has
`revised_prompt: null`. -/
def NullPrompts (v : JSVal) : Prop :=
  ∃ items, v.optProp "data" = .arr items ∧ ∀ e ∈ items, e.optProp "revised_prompt" = .null

/-- The field `errorResponse.error.message` of a thrown
`{ status, errorResponse }`. -/
def errorMessage (errorResponse : JSVal) : JSVal :=
  (errorResponse.optProp "error").optProp "message"

/-- The field `error.type` of a returned value. -/
def errorType (v : JSVal) : JSVal :=
  (v.optProp "error").optProp "type"

/-- The field `error.original_response_from_provider` of a returned
value. -/
def errorOriginal (v : JSVal) : JSVal :=
  (v.optProp "error").optProp "original_response_from_provider"

/-! ## The flattening of the Fal images, in the words of the specification -/

/-- The image descriptors of `images`, left to right: an item that is a
list stands for its elements, any other item for itself. -/
def imageDescriptors (images : List JSVal) : List JSVal :=
  images.flatMap fun item =>
    match item with
    | .arr inner => inner
    | descriptor => [descriptor]

/-- The descriptor has a non-empty `url`. -/
def hasUrl (descriptor : JSVal) : Bool :=
  (descriptor.optProp "url").truthy

/-- The urls of the descriptors that have one, in the order of the
descriptors. -/
def flattenedUrls (images : List JSVal) : List JSVal :=
  ((imageDescriptors images).filter hasUrl).map fun descriptor => descriptor.optProp "url"

/-! ## The parts of a Gemini response, in the words of the specification -/

/-- The read `data?.candidates?.[0]?.content?.parts`. -/
def candidateParts (data : JSVal) : JSVal :=
  (((data.optProp "candidates").first).optProp "content").optProp "parts"

/-- The inline image data a part carries, `part?.inlineData?.data`. -/
def inlineImage (part : JSVal) : JSVal :=
  (part.optProp "inlineData").optProp "data"

/-- The image payloads of the parts that carry non-empty inline image data,
in the order of the parts. -/
def imagePayloads (parts : List JSVal) : List JSVal :=
  (parts.filter fun part => (inlineImage part).truthy).map inlineImage

/-- The text of the first part that has a non-empty text. -/
def firstText (parts : List JSVal) : Option JSVal :=
  (parts.find? fun part => (part.optProp "text").truthy).map fun part => part.optProp "text"

/-- The error `generateGemini` throws for a response without image. -/
def noImageError (message data : JSVal) : Thrown :=
  hardError 406 (.obj [("status", .num 406),
    ("statusText", .str "No image generated"),
    ("error", .obj [("message", message), ("type", .str "No image generated")]),
    ("original_response_from_provider", data)])

/-! ## The Runware entry, in the words of the specification -/

/-- The entry of the `data` array the result is taken from: the first one
whose `taskUUID` is the task id, or else the first entry. -/
def taskEntry (taskUUID : JSVal) (items : List JSVal) : JSVal :=
  match items.find? fun item => (item.optProp "taskUUID").strictEq taskUUID with
  | some item => item
  | none => items.headD .undefined

/-! ## Theorems -/

theorem log2Aux_spec (fuel : Nat) : ∀ n, 1 ≤ n → n ≤ fuel →
    2 ^ log2Aux fuel n ≤ n ∧ n < 2 ^ (log2Aux fuel n + 1) := by
  induction fuel with
  | zero => intro n h1 h2; omega
  | succ fuel ih =>
    intro n h1 h2
    unfold log2Aux
    by_cases h : n < 2
    · have : n = 1 := by omega
      subst this
      simp
    · rw [if_neg h]
      have ih' := ih (n / 2) (by omega) (by omega)
      obtain ⟨a, b⟩ := ih'
      rw [pow_succ, pow_succ] at *
      constructor <;> omega

theorem ilog2_spec (n : Nat) (h : 1 ≤ n) :
    2 ^ ilog2 n ≤ n ∧ n < 2 ^ (ilog2 n + 1) :=
  log2Aux_spec n n h (le_refl n)

theorem roundHalfEven_near (M q : Nat) :
    2 * M ≤ 2 * (roundHalfEven M q * 2 ^ q) + 2 ^ q ∧
    2 * (roundHalfEven M q * 2 ^ q) ≤ 2 * M + 2 ^ q := by
  have hP : 0 < 2 ^ q := Nat.pow_pos (by norm_num)
  have hdm := Nat.div_add_mod M (2 ^ q)
  have hlt := Nat.mod_lt M hP
  unfold roundHalfEven
  simp only
  generalize 2 ^ q = P at *
  generalize M % P = r at *
  generalize hT : M / P = t at *
  split_ifs with hc
  · have : (t + 1) * P = P * t + P := by ring
    rw [this]
    rcases hc with hc | ⟨hc, _⟩ <;> omega
  · have : t * P = P * t := by ring
    rw [this]
    by_cases h2 : 2 * r > P
    · exact absurd (Or.inl h2) hc
    · omega

/-- The rounding step `2 ^ q` of a product `m * n ≥ 2 ^ 53` with a 53-bit
`m` is below `2 * n`. -/
theorem round_step_lt (m n : Nat) (hm : m < 2 ^ 53) (hM : ¬ m * n < 2 ^ 53) :
    1 ≤ ilog2 (m * n) - 52 ∧ 2 ^ (ilog2 (m * n) - 52) < 2 * n := by
  have hM1 : 1 ≤ m * n := by
    have : 0 < 2 ^ 53 := Nat.pow_pos (by norm_num)
    omega
  obtain ⟨hlo, hhi⟩ := ilog2_spec (m * n) hM1
  have hL : 53 ≤ ilog2 (m * n) := by
    by_contra hcon
    have h1 : ilog2 (m * n) + 1 ≤ 53 := by omega
    have h2 : 2 ^ (ilog2 (m * n) + 1) ≤ 2 ^ 53 := Nat.pow_le_pow_right (by norm_num) h1
    omega
  refine ⟨by omega, ?_⟩
  have hn : 0 < n := by
    rcases Nat.eq_zero_or_pos n with h | h
    · subst h; simp at hM1
    · exact h
  have hsplit : 2 ^ ilog2 (m * n) = 2 ^ (ilog2 (m * n) - 52) * 2 ^ 52 := by
    rw [← pow_add]; congr 1; omega
  have hmn : m * n < 2 ^ 53 * n := Nat.mul_lt_mul_of_pos_right hm hn
  rw [hsplit] at hlo
  generalize 2 ^ (ilog2 (m * n) - 52) = P at *
  have h53 : (2 : Nat) ^ 53 = 2 * 2 ^ 52 := by norm_num
  have : P * 2 ^ 52 < (2 * n) * 2 ^ 52 := by
    calc P * 2 ^ 52 ≤ m * n := hlo
      _ < 2 ^ 53 * n := hmn
      _ = (2 * n) * 2 ^ 52 := by rw [h53]; ring
  exact Nat.lt_of_mul_lt_mul_right this

theorem floorMul_lt (r : Draw) (n : Nat) (hr : r.valid) (hn : 0 < n) :
    floorMul r n < n := by
  obtain ⟨hm, _, hme⟩ := hr
  have hE : 0 < 2 ^ r.e := Nat.pow_pos (by norm_num)
  have hMN : r.m * n + n ≤ n * 2 ^ r.e := by
    have : (r.m + 1) * n ≤ 2 ^ r.e * n := Nat.mul_le_mul_right n hme
    calc r.m * n + n = (r.m + 1) * n := by ring
      _ ≤ 2 ^ r.e * n := this
      _ = n * 2 ^ r.e := by ring
  unfold floorMul
  simp only
  split_ifs with hM
  · rw [Nat.div_lt_iff_lt_mul hE]; omega
  · obtain ⟨_, hstep⟩ := round_step_lt r.m n hm hM
    obtain ⟨_, hup⟩ := roundHalfEven_near (r.m * n) (ilog2 (r.m * n) - 52)
    rw [Nat.div_lt_iff_lt_mul hE]
    omega

/-- The draw that lands in the middle of the `j`-th of `n` equal parts of
`[0, 1)`. -/
theorem floorMul_mid (j n : Nat) (hj : j < n) (hn : n < 2 ^ 32) :
    Draw.valid ⟨(2 * j + 1) * 2 ^ 52 / n, 53⟩ ∧
    floorMul ⟨(2 * j + 1) * 2 ^ 52 / n, 53⟩ n = j := by
  have hn0 : 0 < n := by omega
  have h32 : (2 : Nat) ^ 32 = 4294967296 := by norm_num
  have h52 : (2 : Nat) ^ 52 = 4503599627370496 := by norm_num
  have h53 : (2 : Nat) ^ 53 = 9007199254740992 := by norm_num
  have hX : (2 * j + 1) * 2 ^ 52 < n * 2 ^ 53 := by
    rw [h52, h53]; omega
  have hm : (2 * j + 1) * 2 ^ 52 / n < 2 ^ 53 := by
    rw [Nat.div_lt_iff_lt_mul hn0]; rw [mul_comm (2 ^ 53)]; exact hX
  have hlo : (2 * j + 1) * 2 ^ 52 / n * n ≤ (2 * j + 1) * 2 ^ 52 :=
    Nat.div_mul_le_self _ _
  have hhi : (2 * j + 1) * 2 ^ 52 < (2 * j + 1) * 2 ^ 52 / n * n + n := by
    have := Nat.lt_succ_self ((2 * j + 1) * 2 ^ 52 / n)
    have h := (Nat.div_lt_iff_lt_mul hn0).mp this
    calc (2 * j + 1) * 2 ^ 52 < ((2 * j + 1) * 2 ^ 52 / n).succ * n := h
      _ = (2 * j + 1) * 2 ^ 52 / n * n + n := by rw [Nat.succ_mul]
  refine ⟨⟨hm, by norm_num, hm⟩, ?_⟩
  unfold floorMul
  simp only
  generalize hmdef : (2 * j + 1) * 2 ^ 52 / n = m at *
  have hE : 0 < 2 ^ 53 := Nat.pow_pos (by norm_num)
  split_ifs with hM
  · apply Nat.div_eq_of_lt_le
    · rw [h52] at hhi; rw [h53]; omega
    · rw [h52] at hlo; rw [h53]; omega
  · obtain ⟨_, hstep⟩ := round_step_lt m n hm hM
    obtain ⟨hdn, hup⟩ := roundHalfEven_near (m * n) (ilog2 (m * n) - 52)
    generalize roundHalfEven (m * n) (ilog2 (m * n) - 52) * 2 ^ (ilog2 (m * n) - 52) = R at *
    generalize 2 ^ (ilog2 (m * n) - 52) = P at *
    apply Nat.div_eq_of_lt_le
    · rw [h52] at hhi; rw [h53]; omega
    · rw [h52] at hlo; rw [h53]; omega

theorem head_filter_of_find (p : String → Bool) (key : String) :
    ∀ l : List String, l.find? p = some key → ∃ rest, l.filter p = key :: rest := by
  intro l
  induction l with
  | nil => intro h; simp at h
  | cons a t ih =>
    intro h
    by_cases hp : p a = true
    · rw [List.find?_cons_of_pos _ hp] at h
      injection h with h
      subst h
      exact ⟨t.filter p, by rw [List.filter_cons_of_pos hp]⟩
    · rw [List.find?_cons_of_neg _ hp] at h
      obtain ⟨rest, hr⟩ := ih h
      exact ⟨rest, by rw [List.filter_cons_of_neg hp]; exact hr⟩

theorem geminiKeyArray_eq_nil_iff (env : Option String) :
    geminiKeyArray env = [] ↔
      ∀ s, env = some s → ∀ entry ∈ splitComma s, trim entry = "" := by
  cases env with
  | none => simp [geminiKeyArray]
  | some s =>
    by_cases hs : s = ""
    · subst hs
      simp [geminiKeyArray, splitComma, splitCommaAux, trim]
    · simp [geminiKeyArray, hs, List.filter_eq_nil_iff]

/-- C8: for every model id other than the free-tier one, `getGeminiApiKey`
returns the first configured entry that is not blank, whatever the random
draw; and for every model id it fails with 'No Google Gemini API key found'
exactly when the configuration is unset or has no non-blank entry. -/
theorem getGeminiApiKey_first_key (env : Option String) (rand : Draw) (model : JSVal) :
    (getGeminiApiKey env rand model = .error (.error "No Google Gemini API key found") ↔
      ∀ s, env = some s → ∀ entry ∈ splitComma s, trim entry = "") ∧
    (model.isStr "gemini-2.0-flash-exp-image-generation" = false →
      ∀ s key, env = some s →
        (splitComma s).find? (fun k => decide (trim k ≠ "")) = some key →
        ∀ rand' : Draw, getGeminiApiKey env rand' model = .ok (.str key)) := by
  constructor
  · rw [← geminiKeyArray_eq_nil_iff]
    unfold getGeminiApiKey
    simp only
    by_cases h : (geminiKeyArray env).length = 0
    · simp [h, List.length_eq_zero.mp h]
    · rw [if_neg h]
      have hne : geminiKeyArray env ≠ [] := fun hc => h (by rw [hc]; rfl)
      simp only [hne, iff_false]
      split_ifs <;> simp
  · intro hmodel s key henv hfind rand'
    subst henv
    have hs : s ≠ "" := by
      intro hc
      subst hc
      simp [splitComma, splitCommaAux, trim] at hfind
    obtain ⟨rest, hrest⟩ := head_filter_of_find _ key _ hfind
    have hk : geminiKeyArray (some s) = key :: rest := by
      simp only [geminiKeyArray, hs, ne_eq, not_false_eq_true, if_true]
      exact hrest
    unfold getGeminiApiKey
    simp [hk, hmodel, strAt]

theorem getGeminiApiKey_first_key_witness :
    getGeminiApiKey (some " k1 ,,k2") ⟨1, 1⟩ (.str "imagen-3") = .ok (.str " k1 ") :=
  (getGeminiApiKey_first_key (some " k1 ,,k2") ⟨0, 0⟩ (.str "imagen-3")).2
    (by decide) " k1 ,,k2" " k1 " rfl (by decide) ⟨1, 1⟩

/-- C9: for the free-tier model id with more than one configured key, every
draw in `[0, 1)` makes `getGeminiApiKey` return the key at index
`Math.floor(r * N)`, an index that is always in range, and every configured
key is returned for some draw. -/
theorem getGeminiApiKey_free_tier (env : Option String)
    (hN : 1 < (geminiKeyArray env).length)
    (hlen : (geminiKeyArray env).length < 2 ^ 32) :
    (∀ r : Draw, r.valid →
      ∃ key, (geminiKeyArray env)[floorMul r (geminiKeyArray env).length]? = some key ∧
        key ∈ geminiKeyArray env ∧
        getGeminiApiKey env r (.str "gemini-2.0-flash-exp-image-generation") =
          .ok (.str key)) ∧
    (∀ j key, (geminiKeyArray env)[j]? = some key →
      ∃ r : Draw, r.valid ∧ floorMul r (geminiKeyArray env).length = j ∧
        getGeminiApiKey env r (.str "gemini-2.0-flash-exp-image-generation") =
          .ok (.str key)) := by
  have hne : (geminiKeyArray env).length ≠ 0 := by omega
  have hcode : ∀ r : Draw,
      getGeminiApiKey env r (.str "gemini-2.0-flash-exp-image-generation") =
        .ok (strAt (geminiKeyArray env) (floorMul r (geminiKeyArray env).length)) := by
    intro r
    unfold getGeminiApiKey
    simp [hne, hN, JSVal.isStr]
  constructor
  · intro r hr
    have hlt := floorMul_lt r (geminiKeyArray env).length hr (by omega)
    refine ⟨(geminiKeyArray env)[floorMul r (geminiKeyArray env).length], ?_, ?_, ?_⟩
    · exact List.getElem?_eq_getElem hlt
    · exact List.getElem_mem _
    · rw [hcode, strAt, List.getElem?_eq_getElem hlt]
  · intro j key hj
    have hjlt : j < (geminiKeyArray env).length := by
      rcases Nat.lt_or_ge j (geminiKeyArray env).length with h | h
      · exact h
      · rw [List.getElem?_eq_none h] at hj; cases hj
    obtain ⟨hv, hf⟩ := floorMul_mid j _ hjlt hlen
    refine ⟨_, hv, hf, ?_⟩
    rw [hcode, hf, strAt, hj]

theorem getGeminiApiKey_free_tier_witness :
    ∃ r : Draw, r.valid ∧ floorMul r 3 = 2 ∧
      getGeminiApiKey (some "a,b,c") r (.str "gemini-2.0-flash-exp-image-generation") =
        .ok (.str "c") :=
  (getGeminiApiKey_free_tier (some "a,b,c") (by decide) (by decide)).2 2 "c" (by decide)

/-! ### The polling loop of `generateFal` -/

theorem falPoll_step (polls : Nat → Fetched) (fuel a : Nat) (st last p s : JSVal)
    (hst : st.isStr "COMPLETED" = false) (ha : a < maxAttempts)
    (hp : Reports (polls a) p s) (hs : isFailedStatus s = false) :
    falPoll polls (fuel + 1) a st last =
      (.poll :: (falPoll polls fuel (a + 1) s p).1, (falPoll polls fuel (a + 1) s p).2) := by
  obtain ⟨res, hres, hok, hjson, hprop⟩ := hp
  rw [falPoll]
  simp [hst, ha, hres, hok, hjson, hprop, hs]

theorem falPoll_steps (polls : Nat → Fetched) (st pl : Nat → JSVal) (fuel : Nat) :
    ∀ n a, a + n ≤ maxAttempts →
      (∀ i, a ≤ i → i < a + n → (st i).isStr "COMPLETED" = false ∧
        Reports (polls i) (pl (i + 1)) (st (i + 1)) ∧ isFailedStatus (st (i + 1)) = false) →
      falPoll polls (fuel + n) a (st a) (pl a) =
        (List.replicate n .poll ++ (falPoll polls fuel (a + n) (st (a + n)) (pl (a + n))).1,
          (falPoll polls fuel (a + n) (st (a + n)) (pl (a + n))).2) := by
  intro n
  induction n with
  | zero => intro a _ _; simp
  | succ n ih =>
    intro a ha h
    obtain ⟨h1, h2, h3⟩ := h a (le_refl a) (by omega)
    have hstep := falPoll_step polls (fuel + n) a (st a) (pl a) _ _ h1 (by omega) h2 h3
    have hrest := ih (a + 1) (by omega) (fun i hi1 hi2 => h i (by omega) (by omega))
    rw [show fuel + (n + 1) = fuel + n + 1 from rfl, hstep, hrest]
    rw [show a + 1 + n = a + (n + 1) by omega]
    simp [List.replicate_succ]

theorem falPoll_completed (polls : Nat → Fetched) (fuel a : Nat) (st last : JSVal)
    (hst : st.isStr "COMPLETED" = true) :
    falPoll polls fuel a st last = ([], .left st last) := by
  cases fuel with
  | zero => rfl
  | succ fuel => rw [falPoll]; simp [hst]

theorem falFinish_calls (result : Fetched) (now : Nat) (st last : JSVal)
    (hst : st.isStr "COMPLETED" = true) :
    (falFinish result now st last).calls = [.result] := by
  unfold falFinish
  simp only [hst, Bool.not_true, Bool.false_eq_true, if_false]
  cases result with
  | error t => rfl
  | ok resultRes =>
    simp only
    cases resultRes.json with
    | error t => rfl
    | ok resultData =>
      simp only
      split_ifs
      · rfl
      · cases resultData.prop "images" <;> rfl

theorem generateFal_submitted (key : Option String) (fetchParams : JSVal) (submit : Fetched)
    (polls : Nat → Fetched) (result : Fetched) (now : Nat) (p0 s0 : JSVal)
    (hkey : envMissing key = false) (hfp : fetchParams.nullish = false)
    (hsub : Reports submit p0 s0) :
    generateFal key fetchParams submit polls result now =
      match falPoll polls maxAttempts 0 s0 p0 with
      | (calls, .settled outcome) => ⟨.submit :: calls, outcome⟩
      | (calls, .left status lastStatusPayload) =>
        ⟨.submit :: (calls ++ (falFinish result now status lastStatusPayload).calls),
          (falFinish result now status lastStatusPayload).outcome⟩ := by
  obtain ⟨res, hres, hok, hjson, hprop⟩ := hsub
  unfold generateFal
  simp [hkey, JSVal.prop, hfp, hres, hok, hjson]
  simp [JSVal.prop] at hprop
  simp [hprop]
/-- C2: when the submit succeeded with a status other than COMPLETED and
the 60 status polls are all HTTP-ok and report none of COMPLETED, FAILED,
CANCELED and ERROR, `generateFal` issues exactly 60 polls, never fetches
the result, and returns (it does not throw) the object
`{ error: { message, type, original_response_from_provider } }` whose type
is 'timeout_error' and whose original response is the payload of the last
poll.  Here `st 0`, `pl 0` are the status and body of the submit response
and `st k`, `pl k` those of poll number `k`. -/
theorem generateFal_timeout (key : Option String) (fetchParams : JSVal) (submit : Fetched)
    (polls : Nat → Fetched) (result : Fetched) (now : Nat) (st pl : Nat → JSVal)
    (hkey : envMissing key = false) (hfp : fetchParams.nullish = false)
    (hsub : Reports submit (pl 0) (st 0))
    (hsub' : (st 0).isStr "COMPLETED" = false)
    (hpolls : ∀ i, i < 60 → Reports (polls i) (pl (i + 1)) (st (i + 1)) ∧ Running (st (i + 1))) :
    (generateFal key fetchParams submit polls result now).calls =
        .submit :: List.replicate 60 .poll ∧
      (generateFal key fetchParams submit polls result now).outcome =
        .ok (.obj [("error", .obj [
          ("message", .str "Prediction timed out on fal.ai – please try again later"),
          ("type", .str "timeout_error"),
          ("original_response_from_provider", pl 60)])]) ∧
      ∀ v, (generateFal key fetchParams submit polls result now).outcome = .ok v →
        errorType v = .str "timeout_error" ∧ errorOriginal v = pl 60 := by
  have hC : ∀ i, i ≤ 60 → (st i).isStr "COMPLETED" = false := by
    intro i hi
    cases i with
    | zero => exact hsub'
    | succ i => exact (hpolls i (by omega)).2.1
  have hsteps := falPoll_steps polls st pl 0 60 0 (by simp [maxAttempts])
    (fun i _ hi => ⟨hC i (by omega), (hpolls i (by omega)).1, (hpolls i (by omega)).2.2⟩)
  have hrun : generateFal key fetchParams submit polls result now =
      ⟨.submit :: List.replicate 60 .poll,
        .ok (softError (.str "Prediction timed out on fal.ai – please try again later")
          (.str "timeout_error") (pl 60))⟩ := by
    rw [generateFal_submitted key fetchParams submit polls result now _ _ hkey hfp hsub]
    have h60 : maxAttempts = 0 + 60 := rfl
    rw [h60, hsteps]
    simp [falPoll, falFinish, hC 60 (le_refl 60)]
  rw [hrun]
  refine ⟨rfl, rfl, ?_⟩
  intro v hv
  injection hv with hv
  subst hv
  exact ⟨rfl, rfl⟩

/-- C3: for `n ≤ 60`, when the first `n - 1` polls are HTTP-ok and report
a running status and poll number `n` reports COMPLETED (`n = 0`: the submit
response itself does), `generateFal` issues exactly `n` polls and then one
result fetch; when that fetch is HTTP-ok with a JSON body it returns the
success object built from that body, which has no `error` field. -/
theorem generateFal_completed (key : Option String) (fetchParams : JSVal) (submit : Fetched)
    (polls : Nat → Fetched) (result : Fetched) (now : Nat) (st pl : Nat → JSVal) (n : Nat)
    (hn : n ≤ 60)
    (hkey : envMissing key = false) (hfp : fetchParams.nullish = false)
    (hsub : Reports submit (pl 0) (st 0))
    (hrun : ∀ i, i < n → Running (st i))
    (hpolls : ∀ i, i < n → Reports (polls i) (pl (i + 1)) (st (i + 1)))
    (hdone : (st n).isStr "COMPLETED" = true) :
    (generateFal key fetchParams submit polls result now).calls =
        .submit :: (List.replicate n .poll ++ [.result]) ∧
      ∀ (res : Response) (resultData images : JSVal),
        result = .ok res → res.ok = true → res.json = .ok resultData →
        resultData.prop "images" = .ok images →
        (generateFal key fetchParams submit polls result now).outcome =
            .ok (falResult now resultData (resultData.optProp "seed") (falImageUrls images)) ∧
          (falResult now resultData (resultData.optProp "seed")
            (falImageUrls images)).optProp "error" = .undefined := by
  have hnotfailed : ∀ s : JSVal, s.isStr "COMPLETED" = true → isFailedStatus s = false := by
    intro s hs
    cases s <;> simp [JSVal.isStr] at hs
    subst hs
    decide
  have hF : ∀ i, i < n → isFailedStatus (st (i + 1)) = false := by
    intro i hi
    by_cases h : i + 1 < n
    · exact (hrun (i + 1) h).2
    · have : i + 1 = n := by omega
      rw [this]
      exact hnotfailed _ hdone
  have hsteps := falPoll_steps polls st pl (60 - n) n 0 (by simp [maxAttempts]; omega)
    (fun i _ hi => ⟨(hrun i (by omega)).1, hpolls i (by omega), hF i (by omega)⟩)
  rw [generateFal_submitted key fetchParams submit polls result now _ _ hkey hfp hsub]
  have h60 : maxAttempts = 60 - n + n := by simp [maxAttempts]; omega
  rw [h60, hsteps, falPoll_completed polls _ _ _ _ (by simpa using hdone)]
  simp only [Nat.zero_add, List.append_nil]
  refine ⟨by rw [falFinish_calls result now _ _ hdone], ?_⟩
  intro res resultData images hres hok hjson himg
  refine ⟨?_, rfl⟩
  unfold falFinish
  simp [hdone, hres, hok, hjson, himg]
theorem generateFal_timeout_witness :
    (generateFal (some "key") (.obj []) (okJson (queueStatus "IN_QUEUE"))
        (fun _ => okJson (queueStatus "IN_PROGRESS")) (okJson .null) 0).calls =
        .submit :: List.replicate 60 .poll ∧
      (generateFal (some "key") (.obj []) (okJson (queueStatus "IN_QUEUE"))
        (fun _ => okJson (queueStatus "IN_PROGRESS")) (okJson .null) 0).outcome =
        .ok (.obj [("error", .obj [
          ("message", .str "Prediction timed out on fal.ai – please try again later"),
          ("type", .str "timeout_error"),
          ("original_response_from_provider", .obj [("status", .str "IN_PROGRESS")])])]) :=
  ⟨(generateFal_timeout (some "key") (.obj []) (okJson (queueStatus "IN_QUEUE"))
      (fun _ => okJson (queueStatus "IN_PROGRESS")) (okJson .null) 0
      (fun i => if i = 0 then .str "IN_QUEUE" else .str "IN_PROGRESS")
      (fun i => if i = 0 then queueStatus "IN_QUEUE" else queueStatus "IN_PROGRESS")
      rfl rfl ⟨⟨200, .ok (queueStatus "IN_QUEUE")⟩, rfl, rfl, rfl, rfl⟩ rfl
      (fun _ _ => ⟨⟨⟨200, .ok (queueStatus "IN_PROGRESS")⟩, rfl, rfl, rfl, rfl⟩, rfl, rfl⟩)).1,
    (generateFal_timeout (some "key") (.obj []) (okJson (queueStatus "IN_QUEUE"))
      (fun _ => okJson (queueStatus "IN_PROGRESS")) (okJson .null) 0
      (fun i => if i = 0 then .str "IN_QUEUE" else .str "IN_PROGRESS")
      (fun i => if i = 0 then queueStatus "IN_QUEUE" else queueStatus "IN_PROGRESS")
      rfl rfl ⟨⟨200, .ok (queueStatus "IN_QUEUE")⟩, rfl, rfl, rfl, rfl⟩ rfl
      (fun _ _ => ⟨⟨⟨200, .ok (queueStatus "IN_PROGRESS")⟩, rfl, rfl, rfl, rfl⟩, rfl, rfl⟩)).2.1⟩

theorem generateFal_completed_witness :
    (generateFal (some "key") (.obj []) (okJson (queueStatus "IN_QUEUE"))
        (fun i => if i = 0 then okJson (queueStatus "IN_PROGRESS")
          else okJson (queueStatus "COMPLETED"))
        (okJson (.obj [("images", .arr [.obj [("url", .str "u")]])])) 5000).calls =
      [.submit, .poll, .poll, .result] :=
  (generateFal_completed (some "key") (.obj []) (okJson (queueStatus "IN_QUEUE"))
    (fun i => if i = 0 then okJson (queueStatus "IN_PROGRESS")
      else okJson (queueStatus "COMPLETED"))
    (okJson (.obj [("images", .arr [.obj [("url", .str "u")]])])) 5000
    (fun i => if i = 0 then .str "IN_QUEUE" else if i = 1 then .str "IN_PROGRESS"
      else .str "COMPLETED")
    (fun i => if i = 0 then queueStatus "IN_QUEUE" else if i = 1 then queueStatus "IN_PROGRESS"
      else queueStatus "COMPLETED")
    2 (by decide) rfl rfl ⟨⟨200, .ok (queueStatus "IN_QUEUE")⟩, rfl, rfl, rfl, rfl⟩
    (fun i hi => by
      have : i = 0 ∨ i = 1 := by omega
      rcases this with h | h <;> subst h <;> exact ⟨rfl, rfl⟩)
    (fun i hi => by
      have : i = 0 ∨ i = 1 := by omega
      rcases this with h | h <;> subst h
      · exact ⟨⟨200, .ok (queueStatus "IN_PROGRESS")⟩, rfl, rfl, rfl, rfl⟩
      · exact ⟨⟨200, .ok (queueStatus "COMPLETED")⟩, rfl, rfl, rfl, rfl⟩)
    rfl).1

/-- The branch `if (!pollRes.ok)` of the polling loop: for `n < 60`, when
the first `n` polls are HTTP-ok and report a running status and poll number
`n + 1` comes back with a status outside 2xx and a body that parses as JSON,
`generateFal` returns the object whose type is 'polling_error' and whose
original response is that body, and poll `n + 1` is its last network
call. -/
theorem generateFal_polling_error (key : Option String) (fetchParams : JSVal)
    (submit : Fetched) (polls : Nat → Fetched) (result : Fetched) (now : Nat)
    (st pl : Nat → JSVal) (n : Nat) (payload : JSVal)
    (hn : n < 60)
    (hkey : envMissing key = false) (hfp : fetchParams.nullish = false)
    (hsub : Reports submit (pl 0) (st 0))
    (hsub' : (st 0).isStr "COMPLETED" = false)
    (hpolls : ∀ i, i < n → Reports (polls i) (pl (i + 1)) (st (i + 1)) ∧ Running (st (i + 1)))
    (hfail : HttpFails (polls n) payload) :
    (generateFal key fetchParams submit polls result now).calls =
        .submit :: List.replicate (n + 1) .poll ∧
      (generateFal key fetchParams submit polls result now).outcome =
        .ok (.obj [("error", .obj [
          ("message", (payload.optProp "error").orElse (.str "Polling request failed")),
          ("type", .str "polling_error"),
          ("original_response_from_provider", payload)])]) := by
  have hC : ∀ i, i ≤ n → (st i).isStr "COMPLETED" = false := by
    intro i hi
    cases i with
    | zero => exact hsub'
    | succ i => exact (hpolls i (by omega)).2.1
  have hsteps := falPoll_steps polls st pl (60 - n) n 0 (by simp [maxAttempts]; omega)
    (fun i _ hi => ⟨hC i (by omega), (hpolls i (by omega)).1, (hpolls i (by omega)).2.2⟩)
  rw [generateFal_submitted key fetchParams submit polls result now _ _ hkey hfp hsub]
  have h60 : maxAttempts = 60 - n + n := by simp [maxAttempts]; omega
  obtain ⟨res, hres, hok, hjson⟩ := hfail
  have hlast : falPoll polls (60 - n) (0 + n) (st (0 + n)) (pl (0 + n)) =
      ([.poll], .settled (.ok (softError
        ((payload.optProp "error").orElse (.str "Polling request failed"))
        (.str "polling_error") payload))) := by
    obtain ⟨f, hf⟩ : ∃ f, 60 - n = f + 1 := ⟨59 - n, by omega⟩
    rw [hf, falPoll]
    simp [hC n (le_refl n), maxAttempts, hn, hres, hok, hjson]
  rw [h60, hsteps, hlast]
  exact ⟨by simp [List.replicate_succ'], rfl⟩

theorem generateFal_polling_error_witness :
    (generateFal (some "key") (.obj []) (okJson (queueStatus "IN_QUEUE"))
        (fun _ => .ok ⟨502, .ok (.obj [("error", .str "bad gateway")])⟩)
        (okJson .null) 0).outcome =
      .ok (.obj [("error", .obj [("message", .str "bad gateway"),
        ("type", .str "polling_error"),
        ("original_response_from_provider", .obj [("error", .str "bad gateway")])])]) :=
  (generateFal_polling_error (some "key") (.obj []) (okJson (queueStatus "IN_QUEUE"))
    (fun _ => .ok ⟨502, .ok (.obj [("error", .str "bad gateway")])⟩) (okJson .null) 0
    (fun _ => .str "IN_QUEUE") (fun _ => queueStatus "IN_QUEUE") 0
    (.obj [("error", .str "bad gateway")]) (by decide) rfl rfl
    ⟨⟨200, .ok (queueStatus "IN_QUEUE")⟩, rfl, rfl, rfl, rfl⟩ rfl
    (fun i hi => absurd hi (Nat.not_lt_zero i))
    ⟨⟨502, .ok (.obj [("error", .str "bad gateway")])⟩, rfl, rfl, rfl⟩).2

/-- C4: when the first poll request fails at the transport level, the
rejection of `fetch` is not caught and `generateFal` throws it, where the
specification, and the comment above `if (!pollRes.ok)`, ask for a returned
'polling_error' object; and when the poll fails at the HTTP level with a
body that is not JSON (a 502 page), `pollRes.json()`, which runs before the
test of `pollRes.ok`, throws as well.  In both cases the failed poll is the
last network call. -/
theorem generateFal_poll_rejected_throws :
    generateFal (some "key") (.obj []) (okJson (queueStatus "IN_QUEUE"))
        (fun _ => .error (.error "request failed, reason: socket hang up"))
        (okJson .null) 0 =
      ⟨[.submit, .poll], .error (.error "request failed, reason: socket hang up")⟩ ∧
    (∀ v, (generateFal (some "key") (.obj []) (okJson (queueStatus "IN_QUEUE"))
        (fun _ => .error (.error "request failed, reason: socket hang up"))
        (okJson .null) 0).outcome ≠ .ok v) ∧
    generateFal (some "key") (.obj []) (okJson (queueStatus "IN_QUEUE"))
        (fun _ => .ok ⟨502, .error (.error "invalid json response body")⟩)
        (okJson .null) 0 =
      ⟨[.submit, .poll], .error (.error "invalid json response body")⟩ ∧
    (∀ v, (generateFal (some "key") (.obj []) (okJson (queueStatus "IN_QUEUE"))
        (fun _ => .ok ⟨502, .error (.error "invalid json response body")⟩)
        (okJson .null) 0).outcome ≠ .ok v) := by
  refine ⟨rfl, ?_, rfl, ?_⟩
  · intro v h
    cases h
  · intro v h
    cases h

/-- C5: for `n < 60`, when the first `n` polls are HTTP-ok and report a
running status and poll number `n + 1` is HTTP-ok and reports FAILED,
CANCELED or ERROR, `generateFal` returns at once (that poll is its last
network call, and it does not throw) the object
`{ error: { message, type, original_response_from_provider } }` whose type
is the lower-cased status, 'failed', 'canceled' or 'error', and whose
original response is that poll payload. -/
theorem generateFal_failed (key : Option String) (fetchParams : JSVal)
    (submit : Fetched) (polls : Nat → Fetched) (result : Fetched) (now : Nat)
    (st pl : Nat → JSVal) (n : Nat) (payload : JSVal) (up : String)
    (hn : n < 60)
    (hkey : envMissing key = false) (hfp : fetchParams.nullish = false)
    (hsub : Reports submit (pl 0) (st 0))
    (hsub' : (st 0).isStr "COMPLETED" = false)
    (hpolls : ∀ i, i < n → Reports (polls i) (pl (i + 1)) (st (i + 1)) ∧ Running (st (i + 1)))
    (hup : up = "FAILED" ∨ up = "CANCELED" ∨ up = "ERROR")
    (hfail : Reports (polls n) payload (.str up)) :
    (generateFal key fetchParams submit polls result now).calls =
        .submit :: List.replicate (n + 1) .poll ∧
      (up = "FAILED" →
        (generateFal key fetchParams submit polls result now).outcome =
          .ok (.obj [("error", .obj [
            ("message", (payload.optProp "error").orElse (.str "Generation failed")),
            ("type", .str "failed"),
            ("original_response_from_provider", payload)])])) ∧
      (up = "CANCELED" →
        (generateFal key fetchParams submit polls result now).outcome =
          .ok (.obj [("error", .obj [
            ("message", (payload.optProp "error").orElse (.str "Generation failed")),
            ("type", .str "canceled"),
            ("original_response_from_provider", payload)])])) ∧
      (up = "ERROR" →
        (generateFal key fetchParams submit polls result now).outcome =
          .ok (.obj [("error", .obj [
            ("message", (payload.optProp "error").orElse (.str "Generation failed")),
            ("type", .str "error"),
            ("original_response_from_provider", payload)])])) ∧
      ∀ v, (generateFal key fetchParams submit polls result now).outcome = .ok v →
        errorType v = .str (toLowerCase up) ∧ errorOriginal v = payload ∧
        (errorType v = .str "failed" ∨ errorType v = .str "canceled" ∨
          errorType v = .str "error") := by
  have hC : ∀ i, i ≤ n → (st i).isStr "COMPLETED" = false := by
    intro i hi
    cases i with
    | zero => exact hsub'
    | succ i => exact (hpolls i (by omega)).2.1
  have hsteps := falPoll_steps polls st pl (60 - n) n 0 (by simp [maxAttempts]; omega)
    (fun i _ hi => ⟨hC i (by omega), (hpolls i (by omega)).1, (hpolls i (by omega)).2.2⟩)
  rw [generateFal_submitted key fetchParams submit polls result now _ _ hkey hfp hsub]
  have h60 : maxAttempts = 60 - n + n := by simp [maxAttempts]; omega
  obtain ⟨res, hres, hok, hjson, hprop⟩ := hfail
  have hfs : isFailedStatus (.str up) = true := by
    rcases hup with h | h | h <;> subst h <;> decide
  have htr : (JSVal.str up).truthy = true := by
    rcases hup with h | h | h <;> subst h <;> decide
  have hlast : falPoll polls (60 - n) (0 + n) (st (0 + n)) (pl (0 + n)) =
      ([.poll], .settled (.ok (softError
        ((payload.optProp "error").orElse (.str "Generation failed"))
        (.str (toLowerCase up)) payload))) := by
    obtain ⟨f, hf⟩ : ∃ f, 60 - n = f + 1 := ⟨59 - n, by omega⟩
    rw [hf, falPoll]
    simp [hC n (le_refl n), maxAttempts, hn, hres, hok, hjson, hprop, hfs, JSVal.orElse, htr,
      JSVal.lower]
  rw [h60, hsteps, hlast]
  refine ⟨by simp [List.replicate_succ'], ?_, ?_, ?_, ?_⟩
  · intro h; subst h; rfl
  · intro h; subst h; rfl
  · intro h; subst h; rfl
  · intro v hv
    simp only [List.nil_append] at hv
    injection hv with hv
    subst hv
    refine ⟨rfl, rfl, ?_⟩
    rcases hup with h | h | h <;> subst h
    · exact Or.inl rfl
    · exact Or.inr (Or.inl rfl)
    · exact Or.inr (Or.inr rfl)

theorem generateFal_failed_witness :
    (generateFal (some "key") (.obj []) (okJson (queueStatus "IN_QUEUE"))
        (fun _ => okJson (queueStatus "CANCELED")) (okJson .null) 0).outcome =
      .ok (.obj [("error", .obj [("message", .str "Generation failed"),
        ("type", .str "canceled"),
        ("original_response_from_provider", .obj [("status", .str "CANCELED")])])]) :=
  (generateFal_failed (some "key") (.obj []) (okJson (queueStatus "IN_QUEUE"))
    (fun _ => okJson (queueStatus "CANCELED")) (okJson .null) 0
    (fun _ => .str "IN_QUEUE") (fun _ => queueStatus "IN_QUEUE") 0
    (queueStatus "CANCELED") "CANCELED" (by decide) rfl rfl
    ⟨⟨200, .ok (queueStatus "IN_QUEUE")⟩, rfl, rfl, rfl, rfl⟩ rfl
    (fun i hi => absurd hi (Nat.not_lt_zero i)) (Or.inr (Or.inl rfl))
    ⟨⟨200, .ok (queueStatus "CANCELED")⟩, rfl, rfl, rfl, rfl⟩).2.2.1 rfl

/-! ### `generateImage` -/

theorem Registry.get_mem_keys (imageModels : Registry) (key : String) (config : ModelConfig)
    (h : imageModels.get key = some config) : key ∈ imageModels.map Prod.fst := by
  induction imageModels with
  | nil => simp [Registry.get] at h
  | cons p rest ih =>
    obtain ⟨k, c⟩ := p
    by_cases hk : k = key
    · simp [hk]
    · simp only [Registry.get, hk, if_false] at h
      simp [ih h]

theorem mem_supportedModels (imageModels : Registry) (modelId : String) :
    modelId ∈ supportedModels imageModels ↔
      ∃ config, imageModels.get modelId = some config ∧
        (config.supported_params.optProp "edit").isTrue = true := by
  unfold supportedModels
  rw [List.mem_filter]
  constructor
  · rintro ⟨_, h⟩
    unfold supportsEdit at h
    cases hg : imageModels.get modelId with
    | none => rw [hg] at h; cases h
    | some config => rw [hg] at h; exact ⟨config, rfl, h⟩
  · rintro ⟨config, hg, he⟩
    refine ⟨Registry.get_mem_keys imageModels modelId config hg, ?_⟩
    unfold supportsEdit
    rw [hg]
    exact he

/-- C1: when the model of the request resolves to a binding with a provider
id, `files.image` is present and the binding has no `applyImage` function,
`generateImage` fails, with no adapter invoked, with the error whose message
ends in the comma-separated list of the registry keys whose
`supported_params.edit === true`, in registry order: every such model id is
in the list, no other is, and none is repeated. -/
theorem generateImage_edit_unsupported (imageModels : Registry) (handlers : Handlers)
    (storage : JSVal → JSVal → Except Thrown JSVal) (fetchParams : JSVal) (res : Bool)
    (startTime endTime : Nat) (during duringStorage : List SinkEvent)
    (model files image : JSVal) (binding : ProviderBinding) (provider : String)
    (hmodel : fetchParams.prop "model" = .ok model)
    (hbinding : resolveProvider imageModels model = .ok (some (binding, provider)))
    (hfiles : fetchParams.prop "files" = .ok files)
    (himage : files.prop "image" = .ok image)
    (hpresent : image.truthy = true)
    (hhook : binding.applyImage = none) :
    (generateImage imageModels handlers storage fetchParams res startTime endTime during
        duringStorage).outcome =
      .error (.error ("Image editing is not supported for this model. Supported models: " ++
        join ", " (supportedModels imageModels))) ∧
    (generateImage imageModels handlers storage fetchParams res startTime endTime during
        duringStorage).handlerCalls = 0 ∧
    (∀ modelId, modelId ∈ supportedModels imageModels ↔
      ∃ config, imageModels.get modelId = some config ∧
        (config.supported_params.optProp "edit").isTrue = true) ∧
    (supportedModels imageModels).Sublist (imageModels.map Prod.fst) ∧
    ((imageModels.map Prod.fst).Nodup → (supportedModels imageModels).Nodup) := by
  have hstep : imageStep imageModels binding ⟨fetchParams, none⟩ =
      .error (⟨fetchParams, none⟩, .error
        ("Image editing is not supported for this model. Supported models: " ++
          join ", " (supportedModels imageModels))) := by
    simp [imageStep, readFile, Req.cur, hfiles, himage, hpresent, hhook]
  have hrun : generateImage imageModels handlers storage fetchParams res startTime endTime
      during duringStorage =
      ⟨.error (.error ("Image editing is not supported for this model. Supported models: " ++
        join ", " (supportedModels imageModels))), fetchParams, 0, .idle⟩ := by
    simp [generateImage, hmodel, hbinding, prepare, hstep]
  refine ⟨by rw [hrun], by rw [hrun], mem_supportedModels imageModels, ?_, ?_⟩
  · exact List.filter_sublist _
  · intro h
    exact h.filter _

/-! ### The heartbeat -/

theorem Sink.run_started (s : Sink) (events : List SinkEvent) :
    (s.run events).started = s.started := by
  induction events generalizing s with
  | nil => rfl
  | cons e rest ih =>
    have : (s.step e).started = s.started := by
      cases e <;> simp only [Sink.step, Sink.clear] <;> split_ifs <;> rfl
    show ((s.step e).run rest).started = s.started
    rw [ih, this]

theorem Sink.run_stopped (s : Sink) (events : List SinkEvent) (h : s.timer = false) :
    (s.run events).timer = false ∧ (s.run events).written = s.written := by
  induction events generalizing s with
  | nil => exact ⟨h, rfl⟩
  | cons e rest ih =>
    have hs : (s.step e).timer = false ∧ (s.step e).written = s.written := by
      cases e
      · simp [Sink.step, h]
      · simp only [Sink.step, Sink.clear]; split_ifs <;> simp [h]
    obtain ⟨h1, h2⟩ := ih (s.step e) hs.1
    exact ⟨h1, h2.trans hs.2⟩

theorem Sink.run_opened (n : Nat) (events : List SinkEvent) :
    ((Sink.mk true true true n).run events).written = n + heartbeats events ∧
      ((Sink.mk true true true n).run events).started = true := by
  induction events generalizing n with
  | nil => exact ⟨rfl, rfl⟩
  | cons e rest ih =>
    cases e with
    | tick =>
      obtain ⟨h1, h2⟩ := ih (n + 1)
      refine ⟨?_, h2⟩
      show ((Sink.mk true true true (n + 1)).run rest).written = _
      rw [h1, heartbeats]; omega
    | close =>
      have hstop := Sink.run_stopped (Sink.mk true true false n) rest rfl
      refine ⟨?_, ?_⟩
      · show ((Sink.mk true true false n).run rest).written = _
        rw [hstop.2, heartbeats]; rfl
      · show ((Sink.mk true true false n).run rest).started = true
        rw [Sink.run_started]

theorem Sink.clear_stopped (s : Sink) (h : s.started = true) :
    s.clear.timer = false ∧ s.clear.written = s.written ∧ s.clear.started = true := by
  simp [Sink.clear, h]

theorem tryBlock_sink (storage : JSVal → JSVal → Except Thrown JSVal)
    (fetchParams latency : JSVal) (duringStorage : List SinkEvent) (sink : Sink)
    (handled : Except Thrown JSVal) (h : sink.started = true) :
    (tryBlock storage fetchParams latency duringStorage sink handled).2.timer = false ∧
      (tryBlock storage fetchParams latency duringStorage sink handled).2.written =
        sink.written := by
  obtain ⟨c1, c2, c3⟩ := Sink.clear_stopped sink h
  obtain ⟨d1, d2, d3⟩ := Sink.clear_stopped sink.clear c3
  have hrun := Sink.run_stopped sink.clear duringStorage c1
  have hrs : (sink.clear.run duringStorage).started = true := by
    rw [Sink.run_started]; exact c3
  obtain ⟨e1, e2, _⟩ := Sink.clear_stopped (sink.clear.run duringStorage) hrs
  unfold tryBlock
  cases handled with
  | error t => exact ⟨c1, c2⟩
  | ok result =>
    simp only
    cases result.assign "latency" latency with
    | error t => exact ⟨c1, c2⟩
    | ok result' =>
      simp only
      cases fetchParams.prop "model" with
      | error t => exact ⟨d1, d2.trans c2⟩
      | ok model =>
        simp only
        cases includesTest model with
        | error t => exact ⟨d1, d2.trans c2⟩
        | ok b =>
          cases b with
          | true => exact ⟨c1, c2⟩
          | false =>
            simp only
            cases storage result' (fetchParams.optProp "response_format") with
            | error t => exact ⟨e1, e2.trans (hrun.2.trans c2)⟩
            | ok processed => exact ⟨hrun.1, hrun.2.trans c2⟩

/-- C10: whenever `generateImage` has started the heartbeat timer, the timer
is cancelled by the time `generateImage` returns or rethrows, whatever the
adapter returned or threw and whatever the storage service did; the bytes
written are the ticks that came while the adapter call was pending and
before any close of the sink, and no event after that writes a byte. -/
theorem generateImage_heartbeat_cancelled (imageModels : Registry) (handlers : Handlers)
    (storage : JSVal → JSVal → Except Thrown JSVal) (fetchParams : JSVal) (res : Bool)
    (startTime endTime : Nat) (during duringStorage : List SinkEvent)
    (hstarted : (generateImage imageModels handlers storage fetchParams res startTime endTime
      during duringStorage).sink.started = true) :
    (generateImage imageModels handlers storage fetchParams res startTime endTime during
        duringStorage).sink.timer = false ∧
    (generateImage imageModels handlers storage fetchParams res startTime endTime during
        duringStorage).sink.written = heartbeats during ∧
    ∀ later : List SinkEvent,
      ((generateImage imageModels handlers storage fetchParams res startTime endTime during
        duringStorage).sink.run later).written = heartbeats during ∧
      ((generateImage imageModels handlers storage fetchParams res startTime endTime during
        duringStorage).sink.run later).timer = false := by
  have key : (generateImage imageModels handlers storage fetchParams res startTime endTime
      during duringStorage).sink.timer = false ∧
      (generateImage imageModels handlers storage fetchParams res startTime endTime during
        duringStorage).sink.written = heartbeats during := by
    revert hstarted
    unfold generateImage
    cases fetchParams.prop "model" with
    | error t => intro h; cases h
    | ok model =>
      simp only
      cases resolveProvider imageModels model with
      | error t => intro h; cases h
      | ok found =>
      cases found with
      | none => intro h; cases h
      | some bp =>
        obtain ⟨binding, provider⟩ := bp
        simp only
        cases prepare imageModels binding ⟨fetchParams, none⟩ with
        | error e => intro h; cases h
        | ok r =>
          simp only
          cases providerHandlers handlers provider with
          | none => intro h; cases h
          | some handler =>
            simp only
            cases res with
            | false =>
              intro h
              exfalso
              revert h
              simp only [Bool.false_eq_true, if_false]
              generalize handler r.cur = handled
              unfold tryBlock
              cases handled with
              | error t => simp [Sink.clear, Sink.idle]
              | ok result =>
                simp only
                cases result.assign "latency" _ with
                | error t => simp [Sink.clear, Sink.idle]
                | ok result' =>
                  simp only
                  cases r.cur.prop "model" with
                  | error t => simp [Sink.clear, Sink.idle]
                  | ok model' =>
                    simp only
                    cases includesTest model' with
                    | error t => simp [Sink.clear, Sink.idle]
                    | ok b =>
                      cases b with
                      | true => simp [Sink.clear, Sink.idle]
                      | false =>
                        simp only
                        cases storage result' _ with
                        | error t => simp [Sink.clear, Sink.idle, Sink.run_started]
                        | ok p => simp [Sink.clear, Sink.idle, Sink.run_started]
            | true =>
              intro _
              simp only [if_true]
              obtain ⟨hw, hs⟩ := Sink.run_opened 0 during
              have := tryBlock_sink storage r.cur
                (JSVal.num (((endTime : Int) - (startTime : Int) : Int) : ℚ)) duringStorage
                (Sink.opened.run during) (handler r.cur) hs
              refine ⟨this.1, ?_⟩
              rw [this.2]
              simpa using hw
  refine ⟨key.1, key.2, ?_⟩
  intro later
  obtain ⟨h1, h2⟩ := Sink.run_stopped _ later key.1
  exact ⟨h2.trans key.2, h1⟩
theorem generateImage_edit_unsupported_witness :
    (generateImage sampleRegistry sampleHandlers (fun v _ => .ok v)
        (sampleRequest (.obj [("image", .obj [])])) false 0 0 [] []).outcome =
      .error (.error ("Image editing is not supported for this model. Supported models: " ++
        "openai/gpt-image-1, black-forest-labs/flux-kontext")) :=
  (generateImage_edit_unsupported sampleRegistry sampleHandlers (fun v _ => .ok v)
    (sampleRequest (.obj [("image", .obj [])])) false 0 0 [] []
    (.str "google/imagen-4") (.obj [("image", .obj [])]) (.obj [])
    ⟨some "vertex", .str "imagen-4.0-generate-preview-05-20", none, none, none⟩ "vertex"
    rfl rfl rfl rfl rfl rfl).1

theorem generateImage_heartbeat_cancelled_witness :
    (generateImage sampleRegistry sampleHandlers (fun v _ => .ok v)
        (sampleRequest (.obj [])) true 0 7000 [.tick, .tick, .close, .tick] [.tick]).sink.timer =
        false ∧
      (generateImage sampleRegistry sampleHandlers (fun v _ => .ok v)
        (sampleRequest (.obj [])) true 0 7000 [.tick, .tick, .close, .tick] [.tick]).sink.written =
        2 :=
  ⟨(generateImage_heartbeat_cancelled sampleRegistry sampleHandlers (fun v _ => .ok v)
      (sampleRequest (.obj [])) true 0 7000 [.tick, .tick, .close, .tick] [.tick] rfl).1,
    (generateImage_heartbeat_cancelled sampleRegistry sampleHandlers (fun v _ => .ok v)
      (sampleRequest (.obj [])) true 0 7000 [.tick, .tick, .close, .tick] [.tick] rfl).2.1⟩

/-! ### Non-2xx responses -/

theorem orElse_truthy (a b : JSVal) (hb : b.truthy = true) : (a.orElse b).truthy = true := by
  unfold JSVal.orElse
  split_ifs with h
  · exact h
  · exact hb

/-- C6, as the code has it: on a non-2xx response with a JSON body every
adapter throws `{ status, errorResponse }` with the HTTP status.  OpenAI,
Vertex and Fal throw the upstream body itself as `errorResponse`.
DeepInfra, Runware, Replicate and Gemini throw a reshaped error whose
`original_response_from_provider` is the upstream body; its message is the
upstream message or else a fixed non-empty text for DeepInfra and Runware,
the upstream `detail` as it is for Replicate, and the upstream
`error.message` as it is (or the fixed rate-limit text) for Gemini. -/
theorem adapters_non2xx (fetch : Fetched) (status : Nat) (body : JSVal)
    (h : NonOk fetch status body) :
    (∀ fetchParams : JSVal, fetchParams.nullish = false →
      generateOpenAI fetchParams (.ok ()) fetch = .error (hardError status body)) ∧
    (∀ (projectId key : Option String) (token fetchParams : JSVal) (now : Nat),
      envMissing projectId = false → envMissing key = false →
      (token.optProp "token").truthy = true → fetchParams.nullish = false →
      generateVertex projectId key true (.ok token) fetchParams fetch now =
        .error (hardError status body)) ∧
    (∀ (key : Option String) (fetchParams : JSVal) (polls : Nat → Fetched) (result : Fetched)
        (now : Nat), envMissing key = false → fetchParams.nullish = false →
      generateFal key fetchParams fetch polls result now =
        ⟨[.submit], .error (hardError status body)⟩) ∧
    (∀ fetchParams : JSVal, fetchParams.nullish = false →
      generateDeepInfra fetchParams fetch = .error (hardError status (deepInfraError body)) ∧
      (deepInfraError body).optProp "original_response_from_provider" = body ∧
      errorMessage (deepInfraError body) =
        (errorMessage body).orElse (.str "An unknown error occurred (152)") ∧
      (errorMessage (deepInfraError body)).truthy = true) ∧
    (∀ (key : Option String) (usageLogId fetchParams : JSVal) (now : Nat),
      envMissing key = false → usageLogId.truthy = true → fetchParams.nullish = false →
      generateRunware key usageLogId fetchParams fetch now =
        .error (hardError status (runwareError status body)) ∧
      (runwareError status body).optProp "original_response_from_provider" = body ∧
      errorMessage (runwareError status body) =
        ((((body.optProp "errors").first).orElse (.obj [])).optProp "message").orElse
          (.str "Runware generation failed") ∧
      (errorMessage (runwareError status body)).truthy = true) ∧
    (∀ (fetchParams : JSVal) (polled : Except Thrown JSVal) (getTime : JSVal → Option Int),
      fetchParams.nullish = false →
      generateReplicate fetchParams (.ok ()) fetch polled getTime =
        .error (hardError status (replicateError body)) ∧
      (replicateError body).optProp "original_response_from_provider" = body ∧
      errorMessage (replicateError body) = body.optProp "detail") ∧
    (∀ (env : Option String) (rand : Draw) (fetchParams model key : JSVal) (now : Nat),
      fetchParams.prop "model" = .ok model → getGeminiApiKey env rand model = .ok key →
      generateGemini env rand fetchParams (.ok ()) fetch now =
        .error (hardError status (geminiError model body)) ∧
      (geminiError model body).optProp "original_response_from_provider" = body ∧
      errorMessage (geminiError model body) =
        if ((body.optProp "error").optProp "status").isStr "RESOURCE_EXHAUSTED" &&
            model.isStr "gemini-2.0-flash-exp-image-generation" then
          .str "This model hit a global rate limit. Please try again."
        else errorMessage body) := by
  obtain ⟨res, hres, hok, hstatus, hjson⟩ := h
  subst hres
  subst hstatus
  refine ⟨?_, ?_, ?_, ?_, ?_, ?_, ?_⟩
  · intro fetchParams hfp
    simp [generateOpenAI, JSVal.prop, hfp, hok, hjson]
  · intro projectId key token fetchParams now h1 h2 h3 h4
    simp [generateVertex, h1, h2, h3, JSVal.prop, h4, hok, hjson]
  · intro key fetchParams polls result now h1 h2
    simp [generateFal, h1, JSVal.prop, h2, hok, hjson]
  · intro fetchParams hfp
    refine ⟨by simp [generateDeepInfra, JSVal.prop, hfp, hok, hjson], rfl, rfl, ?_⟩
    exact orElse_truthy _ _ rfl
  · intro key usageLogId fetchParams now h1 h2 h3
    refine ⟨by simp [generateRunware, h1, h2, JSVal.prop, h3, hok, hjson], rfl, rfl, ?_⟩
    exact orElse_truthy _ _ rfl
  · intro fetchParams polled getTime hfp
    exact ⟨by simp [generateReplicate, JSVal.prop, hfp, hok, hjson], rfl, rfl⟩
  · intro env rand fetchParams model key now h1 h2
    exact ⟨by simp [generateGemini, h1, h2, hok, hjson], rfl, rfl⟩

theorem adapters_non2xx_witness :
    generateReplicate (.obj []) (.ok ()) (.ok ⟨422, .ok (.obj [("detail", .str "Invalid input")])⟩)
        (.error .typeError) (fun _ => none) =
      .error (hardError 422 (replicateError (.obj [("detail", .str "Invalid input")]))) :=
  ((adapters_non2xx (.ok ⟨422, .ok (.obj [("detail", .str "Invalid input")])⟩) 422
    (.obj [("detail", .str "Invalid input")])
    ⟨⟨422, .ok (.obj [("detail", .str "Invalid input")])⟩, rfl, rfl, rfl, rfl⟩).2.2.2.2.2.1
    (.obj []) (.error .typeError) (fun _ => none) rfl).1

/-- C6, as stated, fails for the adapters that rethrow the upstream body:
on a 503 with body `{"detail": "Service unavailable"}` the `errorResponse`
thrown by `generateOpenAI` has no `error.message` and no
`original_response_from_provider`; and the message that `generateReplicate`
throws for the body `{}` is `undefined`. -/
theorem non2xx_message_missing :
    generateOpenAI (.obj []) (.ok ())
        (.ok ⟨503, .ok (.obj [("detail", .str "Service unavailable")])⟩) =
      .error (.value (.obj [("status", .num 503),
        ("errorResponse", .obj [("detail", .str "Service unavailable")])])) ∧
    errorMessage (.obj [("detail", .str "Service unavailable")]) = .undefined ∧
    (JSVal.obj [("detail", .str "Service unavailable")]).optProp
      "original_response_from_provider" = .undefined ∧
    generateReplicate (.obj []) (.ok ()) (.ok ⟨500, .ok (.obj [])⟩) (.error .typeError)
        (fun _ => none) =
      .error (.value (.obj [("status", .num 500),
        ("errorResponse", .obj [("status", .undefined), ("statusText", .undefined),
          ("error", .obj [("message", .undefined), ("type", .undefined)]),
          ("original_response_from_provider", .obj [])])])) :=
  ⟨rfl, rfl, rfl, rfl⟩
/-! ### 2xx responses -/

theorem softError_has_error (message type original : JSVal) :
    (softError message type original).optProp "error" ≠ .undefined := by
  intro h
  cases h

theorem nullPrompts_map (f : JSVal → JSVal) (xs : List JSVal) (rest : List (String × JSVal))
    (created : JSVal) (hf : ∀ x, (f x).optProp "revised_prompt" = .null) :
    NullPrompts (.obj (("created", created) :: ("data", .arr (xs.map f)) :: rest)) := by
  refine ⟨xs.map f, rfl, ?_⟩
  intro e he
  obtain ⟨x, _, rfl⟩ := List.mem_map.mp he
  exact hf x

theorem replicateResult_shape (getTime : JSVal → Option Int) (data v : JSVal)
    (h : replicateResult getTime data = .ok v) (hv : v.optProp "error" = .undefined) :
    NullPrompts v := by
  unfold replicateResult at h
  repeat' split at h
  all_goals first
    | contradiction
    | (injection h with h
       subst h
       first
         | exact absurd hv (softError_has_error _ _ _)
         | exact nullPrompts_map _ _ _ _ (fun _ => rfl))

theorem generateReplicate_shape (fetchParams : JSVal) (built : Except Thrown Unit)
    (fetch : Fetched) (polled : Except Thrown JSVal) (getTime : JSVal → Option Int) (v : JSVal)
    (h : generateReplicate fetchParams built fetch polled getTime = .ok v)
    (hv : v.optProp "error" = .undefined) : NullPrompts v := by
  unfold generateReplicate at h
  repeat' split at h
  all_goals first | contradiction | exact replicateResult_shape getTime _ v h hv

theorem geminiResult_shape (now : Nat) (data v : JSVal) (h : geminiResult now data = .ok v) :
    NullPrompts v ∧ dataOf v ≠ [] := by
  unfold geminiResult at h
  simp only at h
  cases hit : (if ((((data.optProp "candidates").first).optProp "content").optProp
      "parts").truthy = true then
      ((((data.optProp "candidates").first).optProp "content").optProp "parts").iterate
      else .ok []) with
  | error t => rw [hit] at h; cases h
  | ok items =>
    rw [hit] at h
    simp only at h
    split_ifs at h with hlen
    injection h with h
    subst h
    refine ⟨nullPrompts_map _ _ _ _ (fun _ => rfl), ?_⟩
    show (geminiImages items).map _ ≠ []
    intro hmap
    rw [List.map_eq_nil_iff] at hmap
    rw [hmap] at hlen
    simp at hlen

theorem generateGemini_shape (env : Option String) (rand : Draw) (fetchParams : JSVal)
    (built : Except Thrown Unit) (fetch : Fetched) (now : Nat) (v : JSVal)
    (h : generateGemini env rand fetchParams built fetch now = .ok v) :
    NullPrompts v ∧ dataOf v ≠ [] := by
  unfold generateGemini at h
  repeat' split at h
  all_goals first | contradiction | exact geminiResult_shape now _ v h

theorem vertexEntries_shape (items entries : List JSVal)
    (h : vertexEntries items = .ok entries) :
    ∀ e ∈ entries, e.optProp "revised_prompt" = .null := by
  induction items generalizing entries with
  | nil =>
    injection h with h
    subst h
    intro e he
    cases he
  | cons p rest ih =>
    unfold vertexEntries at h
    cases hp : vertexEntry p with
    | error t => rw [hp] at h; cases h
    | ok e0 =>
      rw [hp] at h
      cases hr : vertexEntries rest with
      | error t => rw [hr] at h; cases h
      | ok es =>
        rw [hr] at h
        injection h with h
        subst h
        intro e he
        rcases List.mem_cons.mp he with he | he
        · subst he
          unfold vertexEntry at hp
          cases hb : p.prop "bytesBase64Encoded" with
          | error t => rw [hb] at hp; cases hp
          | ok b =>
            rw [hb] at hp
            injection hp with hp
            subst hp
            rfl
        · exact ih es hr e he

theorem vertexData_shape (predictions : JSVal) (entries : List JSVal)
    (h : vertexData predictions = .ok entries) :
    ∀ e ∈ entries, e.optProp "revised_prompt" = .null := by
  have hnil : ∀ e ∈ ([] : List JSVal), e.optProp "revised_prompt" = .null := by
    intro e he
    cases he
  unfold vertexData at h
  repeat' split at h
  all_goals first
    | contradiction
    | exact vertexEntries_shape _ _ h
    | (injection h with h; subst h; exact hnil)

theorem generateVertex_shape (projectId key : Option String) (keyParses : Bool)
    (accessToken : Except Thrown JSVal) (fetchParams : JSVal) (fetch : Fetched) (now : Nat)
    (v : JSVal)
    (h : generateVertex projectId key keyParses accessToken fetchParams fetch now = .ok v) :
    NullPrompts v := by
  unfold generateVertex at h
  repeat' split at h
  all_goals first
    | contradiction
    | (rename_i entries hentries
       injection h with h
       subst h
       exact ⟨entries, rfl, vertexData_shape _ _ hentries⟩)

theorem generateTest_shape (fetchParams : JSVal) (file : Except Thrown String) (now : Nat)
    (v : JSVal) (h : generateTest fetchParams file now = .ok v) :
    NullPrompts v ∧ (dataOf v).length = 1 := by
  unfold generateTest at h
  repeat' split at h
  all_goals first
    | contradiction
    | (injection h with h
       subst h
       refine ⟨⟨_, rfl, ?_⟩, rfl⟩
       intro e he
       simp only [List.mem_singleton] at he
       subst he
       rfl)

theorem runwareResult_shape (usageLogId : JSVal) (now : Nat) (data v : JSVal)
    (h : runwareResult usageLogId now data = .ok v) :
    NullPrompts v ∧ (dataOf v).length = 1 := by
  unfold runwareResult at h
  repeat' first | split at h | simp only at h
  all_goals first
    | contradiction
    | (injection h with h
       subst h
       refine ⟨⟨_, rfl, ?_⟩, rfl⟩
       intro e he
       simp only [List.mem_singleton] at he
       subst he
       rfl)

theorem generateRunware_shape (key : Option String) (usageLogId fetchParams : JSVal)
    (fetch : Fetched) (now : Nat) (v : JSVal)
    (h : generateRunware key usageLogId fetchParams fetch now = .ok v) :
    NullPrompts v ∧ (dataOf v).length = 1 := by
  unfold generateRunware at h
  repeat' split at h
  all_goals first | contradiction | exact runwareResult_shape usageLogId now _ v h

theorem falFinish_shape (result : Fetched) (now : Nat) (status last v : JSVal)
    (h : (falFinish result now status last).outcome = .ok v)
    (hv : v.optProp "error" = .undefined) : NullPrompts v := by
  unfold falFinish at h
  repeat' split at h
  all_goals first
    | contradiction
    | (injection h with h
       subst h
       first
         | exact absurd hv (softError_has_error _ _ _)
         | exact nullPrompts_map _ _ _ _ (fun _ => rfl))

theorem falPoll_settled_soft (polls : Nat → Fetched) :
    ∀ (fuel attempts : Nat) (status last : JSVal) (calls : List NetCall) (v : JSVal),
      falPoll polls fuel attempts status last = (calls, .settled (.ok v)) →
      v.optProp "error" ≠ .undefined := by
  intro fuel
  induction fuel with
  | zero =>
    intro attempts status last calls v h
    simp [falPoll] at h
  | succ fuel ih =>
    intro attempts status last calls v h
    rw [falPoll] at h
    split_ifs at h
    · split at h
      · cases h
      · split at h
        · cases h
        · split_ifs at h
          · simp only [Prod.mk.injEq, PollExit.settled.injEq, Except.ok.injEq] at h
            rw [← h.2]
            exact softError_has_error _ _ _
          · split at h
            · cases h
            · split_ifs at h
              · split at h
                · cases h
                · simp only [Prod.mk.injEq, PollExit.settled.injEq, Except.ok.injEq] at h
                  rw [← h.2]
                  exact softError_has_error _ _ _
              · simp only [Prod.mk.injEq] at h
                exact ih _ _ _ _ v (Prod.ext rfl h.2)
    · cases h

theorem generateFal_shape (key : Option String) (fetchParams : JSVal) (submit : Fetched)
    (polls : Nat → Fetched) (result : Fetched) (now : Nat) (v : JSVal)
    (h : (generateFal key fetchParams submit polls result now).outcome = .ok v)
    (hv : v.optProp "error" = .undefined) : NullPrompts v := by
  unfold generateFal at h
  split_ifs at h
  split at h
  · cases h
  · split at h
    · cases h
    · split at h
      · cases h
      · split_ifs at h
        split at h
        · cases h
        · split at h
          · rename_i calls outcome hpoll
            simp only at h
            subst h
            exact absurd hv (falPoll_settled_soft polls _ _ _ _ _ v hpoll)
          · exact falFinish_shape result now _ _ v h hv
/-- C7, as the code has it: on a 2xx response with a JSON body, OpenAI and
DeepInfra return that body unchanged; whatever Gemini, Runware and Test
return has a non-empty `data` array (one entry for Runware and Test);
whatever Replicate, Vertex and Fal return without an `error` field has a
`data` array, which may be empty; and in all six every entry of `data` has
`revised_prompt: null`. -/
theorem adapters_2xx (fetch : Fetched) (body : JSVal) (h : Accepted fetch body) :
    (∀ fetchParams : JSVal, fetchParams.nullish = false →
      generateOpenAI fetchParams (.ok ()) fetch = .ok body) ∧
    (∀ fetchParams : JSVal, fetchParams.nullish = false →
      generateDeepInfra fetchParams fetch = .ok body) ∧
    (∀ (env : Option String) (rand : Draw) (fetchParams : JSVal) (built : Except Thrown Unit)
        (now : Nat) (v : JSVal),
      generateGemini env rand fetchParams built fetch now = .ok v →
      NullPrompts v ∧ dataOf v ≠ []) ∧
    (∀ (key : Option String) (usageLogId fetchParams : JSVal) (now : Nat) (v : JSVal),
      generateRunware key usageLogId fetchParams fetch now = .ok v →
      NullPrompts v ∧ (dataOf v).length = 1) ∧
    (∀ (fetchParams : JSVal) (file : Except Thrown String) (now : Nat) (v : JSVal),
      generateTest fetchParams file now = .ok v → NullPrompts v ∧ (dataOf v).length = 1) ∧
    (∀ (fetchParams : JSVal) (built : Except Thrown Unit) (polled : Except Thrown JSVal)
        (getTime : JSVal → Option Int) (v : JSVal),
      generateReplicate fetchParams built fetch polled getTime = .ok v →
      v.optProp "error" = .undefined → NullPrompts v) ∧
    (∀ (projectId key : Option String) (keyParses : Bool) (accessToken : Except Thrown JSVal)
        (fetchParams : JSVal) (now : Nat) (v : JSVal),
      generateVertex projectId key keyParses accessToken fetchParams fetch now = .ok v →
      NullPrompts v) ∧
    (∀ (key : Option String) (fetchParams : JSVal) (submit : Fetched) (polls : Nat → Fetched)
        (now : Nat) (v : JSVal),
      (generateFal key fetchParams submit polls fetch now).outcome = .ok v →
      v.optProp "error" = .undefined → NullPrompts v) := by
  obtain ⟨res, hres, hok, hjson⟩ := h
  subst hres
  refine ⟨?_, ?_, ?_, ?_, ?_, ?_, ?_, ?_⟩
  · intro fetchParams hfp
    simp [generateOpenAI, JSVal.prop, hfp, hok, hjson]
  · intro fetchParams hfp
    simp [generateDeepInfra, JSVal.prop, hfp, hok, hjson]
  · intro env rand fetchParams built now v hv
    exact generateGemini_shape env rand fetchParams built _ now v hv
  · intro key usageLogId fetchParams now v hv
    exact generateRunware_shape key usageLogId fetchParams _ now v hv
  · intro fetchParams file now v hv
    exact generateTest_shape fetchParams file now v hv
  · intro fetchParams built polled getTime v hv he
    exact generateReplicate_shape fetchParams built _ polled getTime v hv he
  · intro projectId key keyParses accessToken fetchParams now v hv
    exact generateVertex_shape projectId key keyParses accessToken fetchParams _ now v hv
  · intro key fetchParams submit polls now v hv he
    exact generateFal_shape key fetchParams submit polls _ now v hv he

theorem adapters_2xx_witness :
    NullPrompts (.obj [("created", .num 5),
        ("data", .arr [.obj [("b64_json", .str "aGk="), ("revised_prompt", .null)]])]) ∧
      dataOf (.obj [("created", .num 5),
        ("data", .arr [.obj [("b64_json", .str "aGk="), ("revised_prompt", .null)]])]) ≠ [] :=
  (adapters_2xx
    (okJson (.obj [("candidates", .arr [.obj [("content",
      .obj [("parts", .arr [.obj [("inlineData", .obj [("data", .str "aGk=")])]])])]])]))
    (.obj [("candidates", .arr [.obj [("content",
      .obj [("parts", .arr [.obj [("inlineData", .obj [("data", .str "aGk=")])]])])]])])
    ⟨⟨200, .ok (.obj [("candidates", .arr [.obj [("content",
      .obj [("parts", .arr [.obj [("inlineData", .obj [("data", .str "aGk=")])]])])]])])⟩,
      rfl, rfl, rfl⟩).2.2.1
    (some "key") ⟨0, 0⟩ (.obj [("model", .str "gemini-2.0-flash")]) (.ok ()) 5000
    (.obj [("created", .num 5),
      ("data", .arr [.obj [("b64_json", .str "aGk="), ("revised_prompt", .null)]])])
    rfl

/-- C7, as stated, fails on valid 2xx payloads: `generateOpenAI` returns an
image entry as the provider sent it, without a `revised_prompt` field, and
`generateVertex` returns an empty `data` array for a response without
predictions. -/
theorem success_not_canonical :
    generateOpenAI (.obj []) (.ok ())
        (okJson (.obj [("created", .num 1700000000),
          ("data", .arr [.obj [("b64_json", .str "aGk=")]])])) =
      .ok (.obj [("created", .num 1700000000),
        ("data", .arr [.obj [("b64_json", .str "aGk=")]])]) ∧
    (JSVal.obj [("b64_json", .str "aGk=")]).optProp "revised_prompt" = .undefined ∧
    generateVertex (some "project") (some "key") true (.ok (.obj [("token", .str "t")]))
        (.obj [("model", .str "imagen-4.0-generate-preview-05-20")])
        (okJson (.obj [("predictions", .arr [])])) 5000 =
      .ok (.obj [("created", .num 5), ("data", .arr [])]) :=
  ⟨rfl, rfl, rfl⟩

/-! ### The flattening of the Fal images -/

theorem falInnerUrls_eq (inner : List JSVal) :
    falInnerUrls inner = (inner.filter hasUrl).map fun d : JSVal => d.optProp "url" := by
  induction inner with
  | nil => rfl
  | cons o rest ih =>
    unfold falInnerUrls
    by_cases h : (o.optProp "url").truthy = true
    · simp [h, hasUrl, ih]
    · simp [h, hasUrl, ih]

theorem flattenedUrls_cons (item : JSVal) (rest : List JSVal) :
    flattenedUrls (item :: rest) = flattenedUrls [item] ++ flattenedUrls rest := by
  simp [flattenedUrls, imageDescriptors]

theorem falUrls_eq (images : List JSVal) : falUrls images = flattenedUrls images := by
  induction images with
  | nil => rfl
  | cons item rest ih =>
    rw [flattenedUrls_cons, ← ih]
    cases item with
    | arr inner =>
      have h1 : flattenedUrls [JSVal.arr inner] =
          (inner.filter hasUrl).map fun d : JSVal => d.optProp "url" := by
        simp [flattenedUrls, imageDescriptors]
      rw [h1, ← falInnerUrls_eq]
      rfl
    | undefined => rfl
    | null => rfl
    | bool b => rfl
    | num q => rfl
    | nan => rfl
    | str s => rfl
    | obj fields =>
      by_cases h : ((JSVal.obj fields).optProp "url").truthy = true
      · simp [falUrls, flattenedUrls, imageDescriptors, hasUrl, h]
      · simp [falUrls, flattenedUrls, imageDescriptors, hasUrl, h]

theorem generateFal_result (key : Option String) (fetchParams : JSVal) (submit : Fetched)
    (polls : Nat → Fetched) (result : Fetched) (now : Nat) (st pl : Nat → JSVal) (n : Nat)
    (res : Response) (resultData images : JSVal)
    (hn : n ≤ 60)
    (hkey : envMissing key = false) (hfp : fetchParams.nullish = false)
    (hsub : Reports submit (pl 0) (st 0))
    (hrun : ∀ i, i < n → Running (st i))
    (hpolls : ∀ i, i < n → Reports (polls i) (pl (i + 1)) (st (i + 1)))
    (hdone : (st n).isStr "COMPLETED" = true)
    (hres : result = .ok res) (hok : res.ok = true) (hjson : res.json = .ok resultData)
    (himages : resultData.prop "images" = .ok images) :
    (generateFal key fetchParams submit polls result now).outcome =
      .ok (falResult now resultData (resultData.optProp "seed") (falImageUrls images)) := by
  have hnotfailed : ∀ s : JSVal, s.isStr "COMPLETED" = true → isFailedStatus s = false := by
    intro s hs
    cases s <;> simp [JSVal.isStr] at hs
    subst hs
    decide
  have hF : ∀ i, i < n → isFailedStatus (st (i + 1)) = false := by
    intro i hi
    by_cases h : i + 1 < n
    · exact (hrun (i + 1) h).2
    · have : i + 1 = n := by omega
      rw [this]
      exact hnotfailed _ hdone
  have hsteps := falPoll_steps polls st pl (60 - n) n 0 (by simp [maxAttempts]; omega)
    (fun i _ hi => ⟨(hrun i (by omega)).1, hpolls i (by omega), hF i (by omega)⟩)
  rw [generateFal_submitted key fetchParams submit polls result now _ _ hkey hfp hsub]
  have h60 : maxAttempts = 60 - n + n := by simp [maxAttempts]; omega
  rw [h60, hsteps, falPoll_completed polls _ _ _ _ (by simpa using hdone)]
  simp only [Nat.zero_add]
  unfold falFinish
  simp [hdone, hres, hok, hjson, himages]

/-- C16: when the job completes and the result payload has an `images`
array, the urls of the `data` that `generateFal` returns are the urls of the
image descriptors of `images` (items that are lists standing for their
elements), read left to right and keeping only the descriptors with a
non-empty url: there is one entry per such descriptor, in their order, and
every url is non-empty and comes from a descriptor. -/
theorem generateFal_flattens (key : Option String) (fetchParams : JSVal) (submit : Fetched)
    (polls : Nat → Fetched) (result : Fetched) (now : Nat) (st pl : Nat → JSVal) (n : Nat)
    (res : Response) (resultData : JSVal) (items : List JSVal)
    (hn : n ≤ 60)
    (hkey : envMissing key = false) (hfp : fetchParams.nullish = false)
    (hsub : Reports submit (pl 0) (st 0))
    (hrun : ∀ i, i < n → Running (st i))
    (hpolls : ∀ i, i < n → Reports (polls i) (pl (i + 1)) (st (i + 1)))
    (hdone : (st n).isStr "COMPLETED" = true)
    (hres : result = .ok res) (hok : res.ok = true) (hjson : res.json = .ok resultData)
    (himages : resultData.optProp "images" = .arr items) :
    ∃ v, (generateFal key fetchParams submit polls result now).outcome = .ok v ∧
      (dataOf v).map (fun entry : JSVal => entry.optProp "url") = flattenedUrls items ∧
      (dataOf v).length = ((imageDescriptors items).filter hasUrl).length ∧
      (flattenedUrls items).Sublist
        ((imageDescriptors items).map fun descriptor : JSVal => descriptor.optProp "url") ∧
      ∀ url ∈ flattenedUrls items, url.truthy = true := by
  have hprop : resultData.prop "images" = .ok (.arr items) := by
    cases resultData <;> simp [JSVal.optProp] at himages
    simp [JSVal.prop, JSVal.nullish, JSVal.optProp, himages]
  have hout := generateFal_result key fetchParams submit polls result now st pl n res resultData
    (.arr items) hn hkey hfp hsub hrun hpolls hdone hres hok hjson hprop
  refine ⟨_, hout, ?_, ?_, ?_, ?_⟩
  · show ((falImageUrls (.arr items)).map _).map _ = _
    rw [List.map_map]
    have hid : ((fun entry : JSVal => entry.optProp "url") ∘ fun url =>
        JSVal.obj [("url", url), ("revised_prompt", .null),
          ("original_response_from_provider", resultData)]) = id := by
      funext u
      rfl
    rw [hid, List.map_id]
    show falUrls items = _
    exact falUrls_eq items
  · show ((falImageUrls (.arr items)).map _).length = _
    rw [List.length_map]
    show (falUrls items).length = _
    rw [falUrls_eq, flattenedUrls, List.length_map]
  · exact (List.filter_sublist _).map _
  · intro url hurl
    obtain ⟨d, hd, rfl⟩ := List.mem_map.mp hurl
    exact (List.mem_filter.mp hd).2
theorem generateFal_flattens_witness :
    ∃ v, (generateFal (some "key") (.obj []) (okJson (queueStatus "COMPLETED"))
        (fun _ => okJson (queueStatus "COMPLETED"))
        (okJson (.obj [("images", .arr [.arr [.obj [("url", .str "a")], .obj []],
          .obj [("url", .str "b")]])])) 5000).outcome = .ok v ∧
      (dataOf v).map (fun entry : JSVal => entry.optProp "url") = [.str "a", .str "b"] :=
  (generateFal_flattens (some "key") (.obj []) (okJson (queueStatus "COMPLETED"))
    (fun _ => okJson (queueStatus "COMPLETED"))
    (okJson (.obj [("images", .arr [.arr [.obj [("url", .str "a")], .obj []],
      .obj [("url", .str "b")]])])) 5000
    (fun _ => .str "COMPLETED") (fun _ => queueStatus "COMPLETED") 0
    ⟨200, .ok (.obj [("images", .arr [.arr [.obj [("url", .str "a")], .obj []],
      .obj [("url", .str "b")]])])⟩
    (.obj [("images", .arr [.arr [.obj [("url", .str "a")], .obj []],
      .obj [("url", .str "b")]])])
    [.arr [.obj [("url", .str "a")], .obj []], .obj [("url", .str "b")]]
    (by decide) rfl rfl ⟨⟨200, .ok (queueStatus "COMPLETED")⟩, rfl, rfl, rfl, rfl⟩
    (fun i hi => absurd hi (Nat.not_lt_zero i)) (fun i hi => absurd hi (Nat.not_lt_zero i))
    rfl rfl rfl rfl rfl).elim fun v h => ⟨v, h.1, h.2.1.trans rfl⟩

/-! ### The parts of a Gemini response -/

theorem geminiImages_eq (parts : List JSVal) : geminiImages parts = imagePayloads parts := by
  induction parts with
  | nil => rfl
  | cons part rest ih =>
    unfold geminiImages
    by_cases h : ((part.optProp "inlineData").optProp "data").truthy = true
    · simp [h, imagePayloads, inlineImage, ih]
    · simp [h, imagePayloads, inlineImage, ih]

theorem geminiText_eq (parts : List JSVal) :
    (geminiText parts).orElse (.str "No image or text found in response") =
      match firstText parts with
      | some text => text
      | none => .str "No image or text found in response" := by
  induction parts with
  | nil => rfl
  | cons part rest ih =>
    unfold geminiText
    by_cases h : (part.optProp "text").truthy = true
    · simp [h, firstText, JSVal.orElse]
    · simp only [h, Bool.false_eq_true, if_false]
      rw [ih]
      simp [firstText, h]

/-- C12: on a 2xx response whose first candidate has the parts `P` (none
when the response has no such field), `generateGemini` returns, when some
part carries non-empty inline image data, the list of those payloads in the
order of `P`, one `b64_json` entry with `revised_prompt: null` each; and
otherwise it throws status 406 with statusText and type 'No image
generated', the body as `original_response_from_provider`, and as message
the first non-empty text of `P`, or 'No image or text found in response'
when there is none. -/
theorem generateGemini_parts (env : Option String) (rand : Draw)
    (fetchParams model key : JSVal) (fetch : Fetched) (body : JSVal) (now : Nat)
    (P : List JSVal)
    (hmodel : fetchParams.prop "model" = .ok model)
    (hkey : getGeminiApiKey env rand model = .ok key)
    (hfetch : Accepted fetch body)
    (hP : candidateParts body = .arr P ∨ ((candidateParts body).truthy = false ∧ P = [])) :
    (imagePayloads P ≠ [] →
      generateGemini env rand fetchParams (.ok ()) fetch now =
        .ok (.obj [("created", unixSeconds now),
          ("data", .arr ((imagePayloads P).map fun imageData =>
            .obj [("b64_json", imageData), ("revised_prompt", .null)]))])) ∧
    (imagePayloads P = [] →
      generateGemini env rand fetchParams (.ok ()) fetch now =
        .error (noImageError
          (match firstText P with
            | some text => text
            | none => .str "No image or text found in response") body)) := by
  obtain ⟨res, hres, hok, hjson⟩ := hfetch
  subst hres
  have hiter : (if (candidateParts body).truthy = true then (candidateParts body).iterate
      else .ok []) = .ok P := by
    rcases hP with h | ⟨h, hnil⟩
    · rw [h]; rfl
    · rw [h, hnil]; rfl
  have hrun : generateGemini env rand fetchParams (.ok ()) (.ok res) now =
      geminiResult now body := by
    simp [generateGemini, hmodel, hkey, hok, hjson]
  have hresult : geminiResult now body =
      if (geminiImages P).length > 0 then
        .ok (.obj [("created", unixSeconds now),
          ("data", .arr ((geminiImages P).map fun imageData =>
            .obj [("b64_json", imageData), ("revised_prompt", .null)]))])
      else
        .error (noImageError
          ((geminiText P).orElse (.str "No image or text found in response")) body) := by
    unfold geminiResult
    simp only
    rw [show (((body.optProp "candidates").first).optProp "content").optProp "parts" =
      candidateParts body from rfl, hiter]
    rfl
  rw [hrun, hresult, geminiImages_eq, geminiText_eq]
  constructor
  · intro hne
    have : (imagePayloads P).length > 0 := List.length_pos.mpr hne
    simp [this]
  · intro hnil
    simp [hnil]

theorem generateGemini_parts_witness :
    generateGemini (some "key") ⟨0, 0⟩ (.obj [("model", .str "gemini-2.0-flash")]) (.ok ())
        (okJson (.obj [("candidates", .arr [.obj [("content", .obj [("parts",
          .arr [.obj [("text", .str "I cannot draw that")]])])]])])) 5000 =
      .error (noImageError (.str "I cannot draw that")
        (.obj [("candidates", .arr [.obj [("content", .obj [("parts",
          .arr [.obj [("text", .str "I cannot draw that")]])])]])])) :=
  (generateGemini_parts (some "key") ⟨0, 0⟩ (.obj [("model", .str "gemini-2.0-flash")])
    (.str "gemini-2.0-flash") (.str "key")
    (okJson (.obj [("candidates", .arr [.obj [("content", .obj [("parts",
      .arr [.obj [("text", .str "I cannot draw that")]])])]])]))
    (.obj [("candidates", .arr [.obj [("content", .obj [("parts",
      .arr [.obj [("text", .str "I cannot draw that")]])])]])])
    5000 [.obj [("text", .str "I cannot draw that")]] rfl rfl
    ⟨⟨200, .ok (.obj [("candidates", .arr [.obj [("content", .obj [("parts",
      .arr [.obj [("text", .str "I cannot draw that")]])])]])])⟩, rfl, rfl, rfl⟩
    (Or.inl rfl)).2 rfl

/-! ### The Runware result -/

theorem strictEq_truthy (a b : JSVal) (h : a.strictEq b = true) (hb : b.truthy = true) :
    a ≠ .undefined := by
  intro ha
  subst ha
  cases b <;> simp [JSVal.strictEq, JSVal.truthy] at h hb

theorem runwareFind_eq (taskUUID : JSVal) (items : List JSVal)
    (hitems : ∀ item ∈ items, item.nullish = false) :
    runwareFind taskUUID items =
      .ok (match items.find? fun item : JSVal => (item.optProp "taskUUID").strictEq taskUUID with
        | some item => item
        | none => .undefined) := by
  induction items with
  | nil => rfl
  | cons item rest ih =>
    have hnn := hitems item (List.mem_cons_self _ _)
    have ih' := ih (fun x hx => hitems x (List.mem_cons_of_mem _ hx))
    unfold runwareFind
    simp only [JSVal.prop, hnn, Bool.false_eq_true, if_false]
    by_cases h : (item.optProp "taskUUID").strictEq taskUUID = true
    · simp [h, List.find?_cons]
    · rw [ih']
      simp [h, List.find?_cons]

theorem generateRunware_selects (key : Option String) (usageLogId fetchParams : JSVal)
    (fetch : Fetched) (now : Nat) (body : JSVal) (items : List JSVal)
    (hkey : envMissing key = false) (hid : usageLogId.truthy = true)
    (hfp : fetchParams.nullish = false) (hfetch : Accepted fetch body)
    (hdata : body.optProp "data" = .arr items) (hne : items ≠ [])
    (hitems : ∀ item ∈ items, item.nullish = false) :
    generateRunware key usageLogId fetchParams fetch now =
      .ok (.obj [("created", unixSeconds now),
        ("data", .arr [.obj [
          ("url", ((taskEntry usageLogId items).optProp "imageURL").orElse .null),
          ("revised_prompt", .null), ("original_response_from_provider", body)]]),
        ("cost", (taskEntry usageLogId items).optProp "cost")]) := by
  obtain ⟨res, hres, hok, hjson⟩ := hfetch
  subst hres
  have hentry : (match items.find? fun item : JSVal => (item.optProp "taskUUID").strictEq usageLogId with
      | some item => item
      | none => JSVal.undefined).orElse (items.headD .undefined) = taskEntry usageLogId items := by
    unfold taskEntry
    cases hf : items.find? fun item : JSVal => (item.optProp "taskUUID").strictEq usageLogId with
    | none => rfl
    | some item =>
      simp only
      have hp := List.find?_some hf
      have hund := strictEq_truthy _ _ hp hid
      cases item <;> simp [JSVal.optProp] at hund
      rfl
  have hmem : taskEntry usageLogId items ∈ items := by
    unfold taskEntry
    cases hf : items.find? fun item : JSVal => (item.optProp "taskUUID").strictEq usageLogId with
    | none =>
      cases items with
      | nil => exact absurd rfl hne
      | cons a rest => simp
    | some item => exact List.mem_of_find?_eq_some hf
  have hnn := hitems _ hmem
  have htr : (body.optProp "data").truthy = true := by rw [hdata]; rfl
  have hrun : runwareResult usageLogId now body =
      .ok (.obj [("created", unixSeconds now),
        ("data", .arr [.obj [
          ("url", ((taskEntry usageLogId items).optProp "imageURL").orElse .null),
          ("revised_prompt", .null), ("original_response_from_provider", body)]]),
        ("cost", (taskEntry usageLogId items).optProp "cost")]) := by
    unfold runwareResult
    rw [hdata]
    simp only [runwareFind_eq usageLogId items hitems]
    rw [hentry]
    simp only [JSVal.prop, hnn, Bool.false_eq_true, if_false]
  unfold generateRunware
  simp only [hkey, hid, JSVal.prop, hfp, hok, hjson, htr, hrun, Bool.false_eq_true, if_false,
    Bool.not_true, Bool.or_self]

/-- C11: on a 200 response whose body is `{"data": []}`, which passes the
test `!response.ok || !data?.data`, `generateRunware` does not return a
result: the read `taskResult.cost` throws a `TypeError`, although the read
just before it, `taskResult?.imageURL || null`, allows for a missing entry. -/
theorem generateRunware_empty_data_throws :
    generateRunware (some "key") (.str "usage-1") (.obj [("prompt", .str "a cat")])
        (okJson (.obj [("data", .arr [])])) 5000 =
      .error .typeError :=
  rfl

/-! ### Replicate predictions that failed -/

/-- C13: when the poller returns a prediction that reports `failed` and has
no output, `generateReplicate` returns the soft object of a timeout, with
type 'timeout_error' and not 'failed'; and when a prediction reports
`canceled` but carries an output, it returns a success result. -/
theorem generateReplicate_failed_as_timeout :
    generateReplicate (.obj [("prompt", .str "a cat")]) (.ok ())
        (.ok ⟨201, .ok (.obj [("status", .str "starting"),
          ("urls", .obj [("get", .str "https://api.replicate.com/v1/predictions/p1")])])⟩)
        (.ok (.obj [("status", .str "failed"), ("error", .str "NSFW content detected"),
          ("output", .null)]))
        (fun _ => none) =
      .ok (softError (.str "Prediction timed out on Replicate – please try again later")
        (.str "timeout_error")
        (.obj [("status", .str "failed"), ("error", .str "NSFW content detected"),
          ("output", .null)])) ∧
    generateReplicate (.obj [("prompt", .str "a cat")]) (.ok ())
        (.ok ⟨201, .ok (.obj [("status", .str "starting"),
          ("urls", .obj [("get", .str "https://api.replicate.com/v1/predictions/p1")])])⟩)
        (.ok (.obj [("status", .str "canceled"), ("output", .arr [.str "https://r/out.png"])]))
        (fun _ => none) =
      .ok (.obj [("created", .nan),
        ("data", .arr [.obj [("url", .str "https://r/out.png"), ("revised_prompt", .null),
          ("original_response_from_provider",
            .obj [("status", .str "canceled"), ("output", .arr [.str "https://r/out.png"])])]])]) :=
  ⟨rfl, rfl⟩

/-! ### The field `created` -/

/-- C15: `generateTest` returns the clock reading itself as `created`, in
milliseconds, where whole seconds would be `Math.floor(t / 1000)`. -/
theorem generateTest_created_in_milliseconds :
    generateTest (.obj [("quality", .str "low"), ("response_format", .str "url")])
        (.ok "aGk=") 1700000000123 =
      .ok (.obj [("created", .num 1700000000123),
        ("data", .arr [.obj [("revised_prompt", .null),
          ("url", .str ("https://raw.githubusercontent.com/DaWe35/image-router/refs/heads/" ++
            "main/src/shared/imageModels/test/low.png"))]])]) ∧
    unixSeconds 1700000000123 = .num 1700000000 :=
  ⟨rfl, rfl⟩
theorem falFinish_created (result : Fetched) (now : Nat) (status last v : JSVal)
    (h : (falFinish result now status last).outcome = .ok v)
    (hv : v.optProp "error" = .undefined) : v.optProp "created" = unixSeconds now := by
  unfold falFinish at h
  repeat' split at h
  all_goals first
    | contradiction
    | (injection h with h
       subst h
       first
         | exact absurd hv (softError_has_error _ _ _)
         | rfl)

theorem replicateResult_created (getTime : JSVal → Option Int) (data v : JSVal)
    (h : replicateResult getTime data = .ok v) (hv : v.optProp "error" = .undefined) :
    v.optProp "created" = createdAt getTime (data.optProp "created_at") := by
  unfold replicateResult at h
  repeat' split at h
  all_goals first
    | contradiction
    | (injection h with h
       subst h
       first
         | exact absurd hv (softError_has_error _ _ _)
         | rfl)

/-- The adapters other than `generateTest` that build their own result give
`created` in whole seconds: `Math.floor(now / 1000)` for Gemini, Vertex,
Runware and Fal, and the floor of the upstream `created_at` in milliseconds
over 1000 for Replicate. -/
theorem created_in_seconds (now : Nat) (v : JSVal) :
    (∀ (env : Option String) (rand : Draw) (fetchParams : JSVal) (built : Except Thrown Unit)
        (fetch : Fetched),
      generateGemini env rand fetchParams built fetch now = .ok v →
      v.optProp "created" = unixSeconds now) ∧
    (∀ (projectId key : Option String) (keyParses : Bool) (accessToken : Except Thrown JSVal)
        (fetchParams : JSVal) (fetch : Fetched),
      generateVertex projectId key keyParses accessToken fetchParams fetch now = .ok v →
      v.optProp "created" = unixSeconds now) ∧
    (∀ (key : Option String) (usageLogId fetchParams : JSVal) (fetch : Fetched),
      generateRunware key usageLogId fetchParams fetch now = .ok v →
      v.optProp "created" = unixSeconds now) ∧
    (∀ (key : Option String) (fetchParams : JSVal) (submit : Fetched) (polls : Nat → Fetched)
        (result : Fetched),
      (generateFal key fetchParams submit polls result now).outcome = .ok v →
      v.optProp "error" = .undefined → v.optProp "created" = unixSeconds now) ∧
    (∀ (fetchParams : JSVal) (built : Except Thrown Unit) (fetch : Fetched)
        (polled : Except Thrown JSVal) (getTime : JSVal → Option Int),
      generateReplicate fetchParams built fetch polled getTime = .ok v →
      v.optProp "error" = .undefined →
      ∃ data : JSVal, v.optProp "created" = createdAt getTime (data.optProp "created_at")) := by
  refine ⟨?_, ?_, ?_, ?_, ?_⟩
  · intro env rand fetchParams built fetch h
    unfold generateGemini at h
    repeat' split at h
    all_goals first
      | contradiction
      | (unfold geminiResult at h
         repeat' first | split at h | simp only at h
         all_goals first
           | contradiction
           | (injection h with h; subst h; rfl))
  · intro projectId key keyParses accessToken fetchParams fetch h
    unfold generateVertex at h
    repeat' split at h
    all_goals first
      | contradiction
      | (injection h with h; subst h; rfl)
  · intro key usageLogId fetchParams fetch h
    unfold generateRunware at h
    repeat' split at h
    all_goals first
      | contradiction
      | (unfold runwareResult at h
         repeat' first | split at h | simp only at h
         all_goals first
           | contradiction
           | (injection h with h; subst h; rfl))
  · intro key fetchParams submit polls result h hv
    unfold generateFal at h
    repeat' split at h
    all_goals first
      | contradiction
      | exact falFinish_created result now _ _ v h hv
      | (rename_i hpoll
         simp only at h
         subst h
         exact absurd hv (falPoll_settled_soft polls _ _ _ _ _ v hpoll))
  · intro fetchParams built fetch polled getTime h hv
    unfold generateReplicate at h
    repeat' split at h
    all_goals first
      | contradiction
      | exact ⟨_, replicateResult_created getTime _ v h hv⟩

/-! ### The request object after a dispatch -/

theorem lookup_removeKey (k : String) (fields : List (String × JSVal)) :
    JSVal.lookup k (removeKey k fields) = .undefined := by
  induction fields with
  | nil => rfl
  | cons p rest ih =>
    obtain ⟨k', v⟩ := p
    by_cases h : k' = k
    · simp [removeKey, h] at ih ⊢
      exact ih
    · simp [removeKey, h, JSVal.lookup] at ih ⊢
      exact ih

theorem lookup_removeKey_ne (k k' : String) (fields : List (String × JSVal)) (h : k' ≠ k) :
    JSVal.lookup k' (removeKey k fields) = JSVal.lookup k' fields := by
  induction fields with
  | nil => rfl
  | cons p rest ih =>
    obtain ⟨k0, v⟩ := p
    by_cases h0 : k0 = k
    · subst h0
      have hne : ¬ k0 = k' := fun hc => h hc.symm
      simp [removeKey, JSVal.lookup, hne] at ih ⊢
      exact ih
    · by_cases h1 : k0 = k'
      · subst h1
        simp [removeKey, h, JSVal.lookup]
      · simp [removeKey, h0, JSVal.lookup, h1] at ih ⊢
        exact ih

theorem lookup_setKey (k : String) (x : JSVal) (fields : List (String × JSVal)) :
    JSVal.lookup k (setKey k x fields) = x := by
  induction fields with
  | nil => simp [setKey, JSVal.lookup]
  | cons p rest ih =>
    obtain ⟨k', v⟩ := p
    by_cases h : k' = k
    · simp [setKey, h, JSVal.lookup]
    · simp [setKey, h, JSVal.lookup, ih]

theorem lookup_setKey_ne (k k' : String) (x : JSVal) (fields : List (String × JSVal))
    (h : k' ≠ k) : JSVal.lookup k' (setKey k x fields) = JSVal.lookup k' fields := by
  have hne : ¬ k = k' := fun hc => h hc.symm
  induction fields with
  | nil => simp [setKey, JSVal.lookup, hne]
  | cons p rest ih =>
    obtain ⟨k0, v⟩ := p
    by_cases h0 : k0 = k
    · subst h0
      simp [setKey, JSVal.lookup, hne]
    · by_cases h1 : k0 = k'
      · subst h1
        simp [setKey, h, JSVal.lookup]
      · simp [setKey, h0, JSVal.lookup, h1, ih]

theorem applyHook_same (hook : Hook) (contents : JSVal) (h : ∀ p, hook p = .same p) :
    applyHook hook ⟨contents, none⟩ = .ok ⟨contents, none⟩ := by
  simp [applyHook, Req.cur, h, Req.write]

/-- C14, as the code has it: when the model resolves to a binding with a
provider id, the request carries a `files` object, and the binding has no
hooks or hooks that return their argument as it is (the hook being there
when `files.image` or `files.mask` is), `generateImage` changes the object
the caller passed: after the call, whether it returned or threw, that
object has no `files` any more and its `model` is the upstream model name
of the binding. -/
theorem generateImage_mutates_request (imageModels : Registry) (handlers : Handlers)
    (storage : JSVal → JSVal → Except Thrown JSVal) (fields : List (String × JSVal))
    (res : Bool) (startTime endTime : Nat) (during duringStorage : List SinkEvent)
    (binding : ProviderBinding) (provider : String)
    (hbinding : resolveProvider imageModels (JSVal.lookup "model" fields) =
      .ok (some (binding, provider)))
    (hfiles : (JSVal.lookup "files" fields).nullish = false)
    (hhooks : ∀ hook, (binding.applyImage = some hook ∨ binding.applyMask = some hook ∨
      binding.applyQuality = some hook) → ∀ p, hook p = .same p)
    (himage : ((JSVal.lookup "files" fields).optProp "image").truthy = true →
      binding.applyImage ≠ none)
    (hmask : ((JSVal.lookup "files" fields).optProp "mask").truthy = true →
      binding.applyMask ≠ none) :
    (generateImage imageModels handlers storage (.obj fields) res startTime endTime during
        duringStorage).request =
      .obj (setKey "model" binding.model_name (removeKey "files" fields)) ∧
    (generateImage imageModels handlers storage (.obj fields) res startTime endTime during
        duringStorage).request.optProp "files" = .undefined ∧
    (generateImage imageModels handlers storage (.obj fields) res startTime endTime during
        duringStorage).request.optProp "model" = binding.model_name := by
  have hread : ∀ name, readFile ⟨.obj fields, none⟩ name =
      .ok ((JSVal.lookup "files" fields).optProp name) := by
    intro name
    have hp : (JSVal.obj fields).prop "files" = .ok (JSVal.lookup "files" fields) := rfl
    rw [readFile]
    simp only [Req.cur]
    rw [hp]
    simp only [JSVal.prop, hfiles, Bool.false_eq_true, if_false]
  have h1 : imageStep imageModels binding ⟨.obj fields, none⟩ = .ok ⟨.obj fields, none⟩ := by
    rw [imageStep, hread]
    simp only
    split_ifs with ht
    · cases hi : binding.applyImage with
      | none => exact absurd hi (himage ht)
      | some hook => simpa using applyHook_same hook _ (hhooks hook (Or.inl hi))
    · rfl
  have h2 : maskStep binding ⟨.obj fields, none⟩ = .ok ⟨.obj fields, none⟩ := by
    rw [maskStep, hread]
    simp only
    split_ifs with ht
    · cases hi : binding.applyMask with
      | none => exact absurd hi (hmask ht)
      | some hook => simpa using applyHook_same hook _ (hhooks hook (Or.inr (Or.inl hi)))
    · rfl
  have h3 : renameStep binding ⟨.obj fields, none⟩ =
      .ok ⟨.obj (setKey "model" binding.model_name (removeKey "files" fields)), none⟩ := rfl
  have h4 : qualityStep binding
      ⟨.obj (setKey "model" binding.model_name (removeKey "files" fields)), none⟩ =
      .ok ⟨.obj (setKey "model" binding.model_name (removeKey "files" fields)), none⟩ := by
    have hq : (JSVal.obj (setKey "model" binding.model_name (removeKey "files" fields))).prop
        "quality" = .ok (JSVal.lookup "quality"
          (setKey "model" binding.model_name (removeKey "files" fields))) := rfl
    rw [qualityStep]
    simp only [Req.cur]
    rw [hq]
    simp only
    split_ifs with ht
    · cases hi : binding.applyQuality with
      | none => rfl
      | some hook => simpa using applyHook_same hook _ (hhooks hook (Or.inr (Or.inr hi)))
    · rfl
  have hprep : prepare imageModels binding ⟨.obj fields, none⟩ =
      .ok ⟨.obj (setKey "model" binding.model_name (removeKey "files" fields)), none⟩ := by
    simp only [prepare, h1, h2, h3, h4]
  have hreq : (generateImage imageModels handlers storage (.obj fields) res startTime endTime
      during duringStorage).request =
      .obj (setKey "model" binding.model_name (removeKey "files" fields)) := by
    have hm : (JSVal.obj fields).prop "model" = .ok (JSVal.lookup "model" fields) := rfl
    unfold generateImage
    rw [hm]
    simp only [hbinding, hprep]
    cases providerHandlers handlers provider <;> rfl
  refine ⟨hreq, ?_, ?_⟩
  · rw [hreq]
    show JSVal.lookup "files" _ = _
    rw [lookup_setKey_ne _ _ _ _ (by decide), lookup_removeKey]
  · rw [hreq]
    exact lookup_setKey _ _ _

theorem generateImage_mutates_request_witness :
    (generateImage sampleRegistry sampleHandlers (fun v _ => .ok v)
        (.obj [("prompt", .str "a cat"), ("model", .str "openai/gpt-image-1"),
          ("files", .obj [("image", .obj [("path", .str "/tmp/upload-1")])])])
        false 0 0 [] []).request =
      .obj [("prompt", .str "a cat"), ("model", .str "gpt-image-1")] :=
  (generateImage_mutates_request sampleRegistry sampleHandlers (fun v _ => .ok v)
    [("prompt", .str "a cat"), ("model", .str "openai/gpt-image-1"),
      ("files", .obj [("image", .obj [("path", .str "/tmp/upload-1")])])]
    false 0 0 [] []
    ⟨some "openai", .str "gpt-image-1", some fun p => .same p, none, none⟩ "openai"
    rfl rfl
    (fun hook h p => by
      rcases h with h | h | h
      · injection h with h; subst h; rfl
      · cases h
      · cases h)
    (fun _ h => by cases h) (fun h => by cases h)).1

/-- C14, as stated, fails: for a binding without hooks and a request with an
empty `files` carrier, the object the caller passed comes back without
`files` and with `model` replaced by the upstream model name. -/
theorem generateImage_request_changed :
    (generateImage sampleRegistry sampleHandlers (fun v _ => .ok v)
        (sampleRequest (.obj [])) false 0 0 [] []).request =
      .obj [("prompt", .str "a cat"), ("model", .str "imagen-4.0-generate-preview-05-20")] ∧
    (sampleRequest (.obj [])).optProp "files" = .obj [] ∧
    (sampleRequest (.obj [])).optProp "model" = .str "google/imagen-4" :=
  ⟨rfl, rfl, rfl⟩

end ImageRouter
